import Mathlib

/-!
# Main window controller of the box editor (src/src/MainWindow.cpp)

A shallow embedding of the tab container, the persisted settings and the
action state handled by `MainWindow`, followed by theorems about them.

Conventions of the embedding.

* Qt classes (`QTabWidget`, `QSettings`, `QVariant`, `QAction`) are library
  code; the few operations the controller calls are modelled after the Qt
  documentation and carry the Qt names.
* `ChildWidget` is the per-tab document.  Its implementation is an external
  collaborator; the model keeps one field per getter the controller calls.
* What the controller cannot decide by itself (the file system, whether an
  image loads, whether a document accepts a close request) is a parameter.
* C++ `int` values are `Int`; tab counts and indices stay far below the
  machine range, so no wrap-around is modelled.
* Signal delivery is Qt's.  The slots are modelled as functions on the window
  state; `currentChanged` runs the three slots connected to the tab widget's
  `currentChanged(int)` signal, in connection order.  The slots never touch
  the tab list or the settings store.
-/

namespace QBoxEditor

/-! ## Qt value types -/

/-- Bytes of a `QByteArray`. -/
abbrev QByteArray := List Nat

/-- The fragment of `QVariant` the controller stores and reads back. -/
inductive QVariant where
  | invalid
  | string (s : String)
  | stringList (l : List String)
  | byteArray (b : QByteArray)
deriving DecidableEq, Repr

/-- `QVariant::toStringList`: a string list as is, a string as a one-element
list, anything else as the empty list. -/
def QVariant.toStringList : QVariant → List String
  | .stringList l => l
  | .string s => [s]
  | _ => []

/-- `QVariant::toByteArray`: a byte array as is, a string as its UTF-8 bytes,
anything else as the empty array. -/
def QVariant.toByteArray : QVariant → QByteArray
  | .byteArray b => b
  | .string s => s.toUTF8.toList.map (fun b => b.toNat)
  | _ => []

/-! ## The settings store -/

/-- The persisted key-value store behind every `QSettings` object of the
application; an absent key reads as the invalid variant. -/
abbrev Store := String → QVariant

/-- A `QSettings` object: the store it works on and the stack of groups opened
with `beginGroup`. -/
structure QSettings where
  store : Store
  groups : List String

/-- Construct a `QSettings` object on the application's store. -/
def QSettings.ofStore (st : Store) : QSettings :=
  { store := st, groups := [] }

/-- The key as stored: the open groups, each followed by a slash, then the
key. -/
def QSettings.fullKey (s : QSettings) (key : String) : String :=
  String.join (s.groups.map (fun g => g ++ "/")) ++ key

def QSettings.beginGroup (s : QSettings) (g : String) : QSettings :=
  { s with groups := s.groups ++ [g] }

def QSettings.endGroup (s : QSettings) : QSettings :=
  { s with groups := s.groups.dropLast }

def QSettings.value (s : QSettings) (key : String) : QVariant :=
  s.store (s.fullKey key)

def QSettings.setValue (s : QSettings) (key : String) (v : QVariant) : QSettings :=
  { s with store := fun k => if k = s.fullKey key then v else s.store k }

/-! ## Documents and tabs -/

/-- The per-tab document, as far as the controller observes it: one field per
getter called in MainWindow.cpp, and the direct-typing flag written by
`setDirectTypingMode`. -/
structure ChildWidget where
  canonicalImageFileName : String
  userFriendlyCurrentFile : String
  currentBoxFile : String
  isModified : Bool
  isBoxSelected : Bool
  isBold : Bool
  isItalic : Bool
  isUnderLine : Bool
  isShowSymbol : Bool
  isDrawBoxes : Bool
  directTypingMode : Bool
  getSymbolHexCode : String
  getBoxSize : String
  getZoom : String
deriving DecidableEq, Repr

/-- One page of the tab widget: the document and the tab text. -/
structure Tab where
  widget : ChildWidget
  text : String
deriving DecidableEq, Repr

/-- The state of a `QTabWidget`: its pages in order and the current index
(-1 when there is no page). -/
structure QTabWidget where
  tabs : List Tab
  currentIndex : Int
deriving DecidableEq, Repr

def QTabWidget.count (t : QTabWidget) : Int := t.tabs.length

/-- `QTabWidget::widget(int)`: the page at the index, null when out of range. -/
def QTabWidget.widget (t : QTabWidget) (index : Int) : Option ChildWidget :=
  if 0 ≤ index then (t.tabs.get? index.toNat).map Tab.widget else none

def QTabWidget.currentWidget (t : QTabWidget) : Option ChildWidget :=
  t.widget t.currentIndex

/-- `QTabWidget::setCurrentIndex(int)`: ignored when the index is out of
range. -/
def QTabWidget.setCurrentIndex (t : QTabWidget) (index : Int) : QTabWidget :=
  if 0 ≤ index ∧ index < t.count then { t with currentIndex := index } else t

/-- `QTabWidget::addTab`: appends the page and returns its index; the first
page added becomes the current one. -/
def QTabWidget.addTab (t : QTabWidget) (page : ChildWidget) (label : String) :
    QTabWidget × Int :=
  ({ tabs := t.tabs ++ [{ widget := page, text := label }],
     currentIndex := if t.tabs.length = 0 then 0 else t.currentIndex },
   t.count)

/-- `QTabWidget::removeTab(int)`: ignored when out of range.  When the current
page is removed the page to its right becomes current (the last page when
there is none to the right); a removal to the left of the current page shifts
the current index down by one. -/
def QTabWidget.removeTab (t : QTabWidget) (index : Int) : QTabWidget :=
  if 0 ≤ index ∧ index < t.count then
    let tabs := t.tabs.eraseIdx index.toNat
    let n : Int := tabs.length
    let cur : Int :=
      if n = 0 then -1
      else if index < t.currentIndex then t.currentIndex - 1
      else if index = t.currentIndex then
        (if t.currentIndex < n then t.currentIndex else n - 1)
      else t.currentIndex
    { tabs := tabs, currentIndex := cur }
  else t

/-- `QTabWidget::setTabText(int, QString)`. -/
def QTabWidget.setTabText (t : QTabWidget) (index : Int) (label : String) : QTabWidget :=
  if 0 ≤ index then
    { t with tabs := t.tabs.modify (fun p => { p with text := label }) index.toNat }
  else t

/-! ## Actions -/

/-- The state of a `QAction` the controller changes. -/
structure QAction where
  enabled : Bool
  checked : Bool
  visible : Bool
  text : String
  data : QVariant
deriving DecidableEq, Repr

def QAction.setEnabled (a : QAction) (b : Bool) : QAction := { a with enabled := b }

/-- `QAction::setChecked`.  Every action it is called on in MainWindow.cpp is
checkable (createActions, lines 611, 617, 623, 665, 679). -/
def QAction.setChecked (a : QAction) (b : Bool) : QAction := { a with checked := b }

def QAction.setVisible (a : QAction) (b : Bool) : QAction := { a with visible := b }

def QAction.setText (a : QAction) (s : String) : QAction := { a with text := s }

def QAction.setData (a : QAction) (v : QVariant) : QAction := { a with data := v }

/-! ## The environment and the window -/

/-- What the controller takes from outside MainWindow.cpp. -/
structure Env where
  /-- `QFileInfo(f).canonicalFilePath()`. -/
  canonicalFilePath : String → String
  /-- `QFileInfo(f).absolutePath()`. -/
  absolutePath : String → String
  /-- `ChildWidget::loadImage(f)` on a fresh document: the loaded document, or
  `none` when loading fails. -/
  loadImage : String → Option ChildWidget
  /-- The constant `MaxRecentFiles` of MainWindow.h, the size of
  `recentFileActs`. -/
  MaxRecentFiles : Nat

/-- The state of the main window. -/
structure MainWindow where
  tabWidget : QTabWidget
  /-- The persisted store every `QSettings` object is constructed on. -/
  settings : Store
  /-- Number of `ChildWidget` objects constructed so far. -/
  childrenCreated : Nat
  /-- Last message shown in the status bar. -/
  statusMessage : String
  utfCodeLabel : String
  boxsize : String
  zoom : String
  /-- What `saveGeometry()` returns. -/
  geometry : QByteArray
  /-- What `saveState()` returns. -/
  state : QByteArray
  /-- The argument of the last `restoreGeometry` call. -/
  restoreGeometryArg : QByteArray
  /-- The argument of the last `restoreState` call. -/
  restoreStateArg : QByteArray
  recentFileActs : List QAction
  fSeparatorAct : QAction
  separatorAct : QAction
  saveAct : QAction
  saveAsAct : QAction
  importSymAct : QAction
  closeAct : QAction
  closeAllAct : QAction
  nextAct : QAction
  previousAct : QAction
  zoomOriginalAct : QAction
  zoomInAct : QAction
  zoomOutAct : QAction
  zoomToFitAct : QAction
  zoomToHeightAct : QAction
  zoomToWidthAct : QAction
  zoomToSelectionAct : QAction
  showSymbolAct : QAction
  goToRowAct : QAction
  drawBoxesAct : QAction
  DirectTypingAct : QAction
  boldAct : QAction
  italicAct : QAction
  underlineAct : QAction
  moveUpAct : QAction
  moveDownAct : QAction
  moveToAct : QAction
  insertAct : QAction
  splitAct : QAction
  joinAct : QAction
  deleteAct : QAction

/-! ## The controller -/

/-- The initial value of every action (createActions): enabled, unchecked,
visible. -/
def QAction.created : QAction :=
  { enabled := true, checked := false, visible := true, text := "", data := .invalid }

/-- `MainWindow::activeChild` (lines 72-76): the current page of the tab
widget, null when there is none.  Every page is a `ChildWidget`, so the cast
succeeds. -/
def activeChild (w : MainWindow) : Option ChildWidget :=
  w.tabWidget.currentWidget

/-- `QFileInfo(f).fileName()`: what follows the last slash. -/
def fileName (f : String) : String :=
  String.mk (f.data.reverse.takeWhile (fun c => c != '/')).reverse

/-- `MainWindow::updateRecentFileActions` (lines 141-159).  The two loops run
over the index ranges of the source; an array slot is written through the
index. -/
def updateRecentFileActions (env : Env) (w : MainWindow) : MainWindow :=
  let settings := QSettings.ofStore w.settings
  let files := (settings.value "recentFileList").toStringList
  let numRecentFiles := min files.length env.MaxRecentFiles
  let acts1 := (List.range numRecentFiles).foldl
    (fun acts i =>
      let text := "&" ++ toString (i + 1) ++ " " ++ fileName (files.getD i "")
      acts.modify
        (fun a => ((a.setText text).setData (.string (files.getD i ""))).setVisible true) i)
    w.recentFileActs
  let acts2 := (List.range' numRecentFiles (env.MaxRecentFiles - numRecentFiles)).foldl
    (fun acts j => acts.modify (fun a => a.setVisible false) j)
    acts1
  { w with
    recentFileActs := acts2
    fSeparatorAct := w.fSeparatorAct.setVisible (decide (numRecentFiles > 0)) }

/-- The search loop of `addChild` (lines 99-105) from index `i` on: the first
index whose document reports the canonical name. -/
def addChildScan (canonicalImageFileName : String) : List Tab → Nat → Option Nat
  | [], _ => none
  | t :: rest, i =>
    if canonicalImageFileName = t.widget.canonicalImageFileName then some i
    else addChildScan canonicalImageFileName rest (i + 1)

/-- The loop `while (files.size() > MaxRecentFiles) files.removeLast();`
(lines 125-126). -/
def removeLastWhile (maxRecentFiles : Nat) (files : List String) : List String :=
  if maxRecentFiles < files.length then
    removeLastWhile maxRecentFiles files.dropLast
  else files
termination_by files.length
decreasing_by
  simp only [List.length_dropLast]
  omega

/-- `MainWindow::addChild` (lines 95-139). -/
def addChild (env : Env) (w : MainWindow) (imageFileName : String) : MainWindow :=
  if imageFileName = "" then w
  else
    let canonicalImageFileName := env.canonicalFilePath imageFileName
    match addChildScan canonicalImageFileName w.tabWidget.tabs 0 with
    | some i => { w with tabWidget := w.tabWidget.setCurrentIndex i }
    | none =>
      let w1 := { w with childrenCreated := w.childrenCreated + 1 }
      match env.loadImage imageFileName with
      | some child =>
        let added := w1.tabWidget.addTab child child.userFriendlyCurrentFile
        let w2 := { w1 with
          statusMessage := "File loaded"
          tabWidget := added.1.setCurrentIndex added.2 }
        let settings := QSettings.ofStore w2.settings
        let filePath := env.absolutePath imageFileName
        let settings := settings.setValue "last_path" (.string filePath)
        let files := (settings.value "recentFileList").toStringList
        let files := files.filter (fun x => x != imageFileName)
        let files := imageFileName :: files
        let files := removeLastWhile env.MaxRecentFiles files
        let settings := settings.setValue "recentFileList" (.stringList files)
        updateRecentFileActions env { w2 with settings := settings.store }
      | none => w1

/-- `MainWindow::closeActiveTab` (lines 203-209).  `accept` is the answer of
`QWidget::close()` of a document. -/
def closeActiveTab (accept : ChildWidget → Bool) (w : MainWindow) : Bool × MainWindow :=
  match w.tabWidget.currentWidget with
  | some c =>
    if accept c then
      (true, { w with tabWidget := w.tabWidget.removeTab w.tabWidget.currentIndex })
    else (false, w)
  | none => (false, w)

/-- `MainWindow::closeAllTabs` (lines 211-217).  The loop is a recursion on the
window; `closeActiveTab accept w` names the one call of an iteration, its flag
and the window it leaves.  Every accepted close removes a tab, so the loop
ends. -/
def closeAllTabs (accept : ChildWidget → Bool) (w : MainWindow) : Bool × MainWindow :=
  if h : (w.tabWidget.currentWidget).isSome = true then
    if h2 : (closeActiveTab accept w).1 = true then
      closeAllTabs accept (closeActiveTab accept w).2
    else (false, (closeActiveTab accept w).2)
  else (true, w)
termination_by w.tabWidget.tabs.length
decreasing_by
  simp only [closeActiveTab] at h2 ⊢
  cases hcw : w.tabWidget.currentWidget with
  | none => simp [hcw] at h
  | some c =>
    simp only [hcw] at h2 ⊢
    by_cases ha : accept c = true
    · have h0 : 0 ≤ w.tabWidget.currentIndex := by
        by_contra hneg
        simp [QTabWidget.currentWidget, QTabWidget.widget, hneg] at hcw
      have hlt : w.tabWidget.currentIndex.toNat < w.tabWidget.tabs.length := by
        by_contra hge
        have hnone : w.tabWidget.tabs[w.tabWidget.currentIndex.toNat]? = none :=
          List.getElem?_eq_none (by omega)
        simp [QTabWidget.currentWidget, QTabWidget.widget, h0, hnone] at hcw
      have hidx : w.tabWidget.currentIndex < w.tabWidget.count := by
        simp only [QTabWidget.count]
        omega
      simp only [ha, if_true, QTabWidget.removeTab, h0, hidx, and_self,
        List.length_eraseIdx, hlt]
      omega
    · simp [ha] at h2

/-- `MainWindow::handleClose` (lines 448-457). -/
def handleClose (accept : ChildWidget → Bool) (w : MainWindow) (i : Int) : MainWindow :=
  let w1 :=
    match w.tabWidget.widget i with
    | some c => if accept c then { w with tabWidget := w.tabWidget.removeTab i } else w
    | none => w
  match activeChild w1 with
  | none => { w1 with utfCodeLabel := "", boxsize := "", zoom := "" }
  | some _ => w1

/-- `MainWindow::nextTab` (lines 226-230); `%` is the truncating remainder of
C++. -/
def nextTab (w : MainWindow) : MainWindow :=
  if w.tabWidget.count > 0 then
    let index := Int.tmod (w.tabWidget.currentIndex + 1) w.tabWidget.count
    { w with tabWidget := w.tabWidget.setCurrentIndex index }
  else w

/-- `MainWindow::previousTab` (lines 232-237). -/
def previousTab (w : MainWindow) : MainWindow :=
  if w.tabWidget.count > 0 then
    let index :=
      Int.tmod (w.tabWidget.currentIndex + w.tabWidget.count - 1) w.tabWidget.count
    { w with tabWidget := w.tabWidget.setCurrentIndex index }
  else w

/-- `MainWindow::updateMenus` (lines 459-478). -/
def updateMenus (w : MainWindow) : MainWindow :=
  { w with
    saveAsAct := w.saveAsAct.setEnabled (activeChild w).isSome
    importSymAct := w.importSymAct.setEnabled (activeChild w).isSome
    closeAct := w.closeAct.setEnabled (activeChild w).isSome
    closeAllAct := w.closeAllAct.setEnabled (activeChild w).isSome
    nextAct := w.nextAct.setEnabled (activeChild w).isSome
    previousAct := w.previousAct.setEnabled (activeChild w).isSome
    separatorAct := w.separatorAct.setVisible (activeChild w).isSome
    zoomOriginalAct := w.zoomOriginalAct.setEnabled (activeChild w).isSome
    zoomInAct := w.zoomInAct.setEnabled (activeChild w).isSome
    zoomOutAct := w.zoomOutAct.setEnabled (activeChild w).isSome
    zoomToFitAct := w.zoomToFitAct.setEnabled (activeChild w).isSome
    zoomToHeightAct := w.zoomToHeightAct.setEnabled (activeChild w).isSome
    zoomToWidthAct := w.zoomToWidthAct.setEnabled (activeChild w).isSome
    zoomToSelectionAct := w.zoomToSelectionAct.setEnabled (activeChild w).isSome
    showSymbolAct := w.showSymbolAct.setEnabled (activeChild w).isSome
    goToRowAct := w.goToRowAct.setEnabled (activeChild w).isSome
    drawBoxesAct := w.drawBoxesAct.setEnabled (activeChild w).isSome
    DirectTypingAct := w.DirectTypingAct.setEnabled (activeChild w).isSome }

/-- The value of `(activeChild()) ? activeChild()->flag() : false`. -/
def childFlag (w : MainWindow) (flag : ChildWidget → Bool) : Bool :=
  match activeChild w with
  | some c => flag c
  | none => false

/-- `MainWindow::updateCommandActions` (lines 480-507). -/
def updateCommandActions (w : MainWindow) : MainWindow :=
  let enable := childFlag w ChildWidget.isBoxSelected
  let w1 := { w with
    boldAct := (w.boldAct.setEnabled enable).setChecked (childFlag w ChildWidget.isBold)
    italicAct := (w.italicAct.setEnabled enable).setChecked (childFlag w ChildWidget.isItalic)
    underlineAct :=
      (w.underlineAct.setEnabled enable).setChecked (childFlag w ChildWidget.isUnderLine)
    showSymbolAct := w.showSymbolAct.setChecked (childFlag w ChildWidget.isShowSymbol)
    drawBoxesAct := w.drawBoxesAct.setChecked (childFlag w ChildWidget.isDrawBoxes)
    moveUpAct := w.moveUpAct.setEnabled enable
    moveDownAct := w.moveDownAct.setEnabled enable
    moveToAct := w.moveToAct.setEnabled enable
    insertAct := w.insertAct.setEnabled enable
    splitAct := w.splitAct.setEnabled enable
    joinAct := w.joinAct.setEnabled enable
    deleteAct := w.deleteAct.setEnabled enable }
  match activeChild w1 with
  | some c =>
    { w1 with
      utfCodeLabel := c.getSymbolHexCode
      boxsize := c.getBoxSize
      zoom := c.getZoom }
  | none => w1

/-- `MainWindow::updateSaveAction` (lines 509-511). -/
def updateSaveAction (w : MainWindow) : MainWindow :=
  { w with saveAct := w.saveAct.setEnabled (childFlag w ChildWidget.isModified) }

/-- The slots connected to the tab widget's `currentChanged(int)` signal
(lines 36-41), run in connection order. -/
def currentChanged (w : MainWindow) : MainWindow :=
  updateSaveAction (updateCommandActions (updateMenus w))

/-- The user moves the focus to the tab at `index`: `setCurrentIndex`, then
the slots of `currentChanged(int)`. -/
def focusTab (w : MainWindow) (index : Int) : MainWindow :=
  currentChanged { w with tabWidget := w.tabWidget.setCurrentIndex index }

/-- `MainWindow::directTypingMode(bool)` (lines 305-309):
`activeChild()->setDirectTypingMode(checked)` writes the flag of the active
document. -/
def directTypingMode (w : MainWindow) (checked : Bool) : MainWindow :=
  match activeChild w with
  | some _ =>
    { w with tabWidget := { w.tabWidget with
        tabs := w.tabWidget.tabs.modify
          (fun t => { t with widget := { t.widget with directTypingMode := checked } })
          w.tabWidget.currentIndex.toNat } }
  | none => w

/-- The user activates `DirectTypingAct`: an enabled checkable action toggles
its checked state and emits `triggered(bool)`, which is connected to
`directTypingMode(bool)` (lines 672-675). -/
def triggerDirectTypingAct (w : MainWindow) : MainWindow :=
  if w.DirectTypingAct.enabled then
    let checked := !w.DirectTypingAct.checked
    directTypingMode { w with DirectTypingAct := w.DirectTypingAct.setChecked checked } checked
  else w

/-- `MainWindow::readSettings` (lines 869-877). -/
def readSettings (w : MainWindow) : MainWindow :=
  let settings := (QSettings.ofStore w.settings).beginGroup "mainWindow"
  let w1 := { w with restoreGeometryArg := (settings.value "geometry").toByteArray }
  { w1 with restoreStateArg := (settings.value "state").toByteArray }

/-- `MainWindow::writeSettings` (lines 879-887). -/
def writeSettings (w : MainWindow) : MainWindow :=
  let settings := (QSettings.ofStore w.settings).beginGroup "mainWindow"
  let settings := settings.setValue "geometry" (.byteArray w.geometry)
  let settings := settings.setValue "state" (.byteArray w.state)
  let settings := settings.endGroup
  { w with settings := settings.store }

/-- `MainWindow::closeEvent` (lines 63-70); the flag tells whether the event
was accepted. -/
def closeEvent (accept : ChildWidget → Bool) (w : MainWindow) : Bool × MainWindow :=
  let r := closeAllTabs accept w
  if r.1 then (true, writeSettings r.2) else (false, r.2)

/-- `MainWindow::MainWindow` (lines 27-61) on a settings store, with the
geometry and layout state the fresh window has: an empty tab widget, the
actions as `createActions` and `createMenus` leave them, then the three
update slots and `readSettings`. -/
def MainWindow.new (env : Env) (st : Store) (geometry state : QByteArray) : MainWindow :=
  let w0 : MainWindow :=
    { tabWidget := { tabs := [], currentIndex := -1 }
      settings := st
      childrenCreated := 0
      statusMessage := ""
      utfCodeLabel := ""
      boxsize := ""
      zoom := ""
      geometry := geometry
      state := state
      restoreGeometryArg := []
      restoreStateArg := []
      recentFileActs := List.replicate env.MaxRecentFiles (QAction.created.setVisible false)
      fSeparatorAct := QAction.created
      separatorAct := QAction.created
      saveAct := QAction.created.setEnabled false
      saveAsAct := QAction.created.setEnabled false
      importSymAct := QAction.created.setEnabled false
      closeAct := QAction.created
      closeAllAct := QAction.created
      nextAct := QAction.created
      previousAct := QAction.created
      zoomOriginalAct := QAction.created
      zoomInAct := QAction.created
      zoomOutAct := QAction.created
      zoomToFitAct := QAction.created
      zoomToHeightAct := QAction.created
      zoomToWidthAct := QAction.created
      zoomToSelectionAct := QAction.created
      showSymbolAct := QAction.created
      goToRowAct := QAction.created
      drawBoxesAct := QAction.created
      DirectTypingAct := QAction.created
      boldAct := QAction.created
      italicAct := QAction.created
      underlineAct := QAction.created
      moveUpAct := QAction.created
      moveDownAct := QAction.created
      moveToAct := QAction.created
      insertAct := QAction.created
      splitAct := QAction.created
      joinAct := QAction.created
      deleteAct := QAction.created }
  readSettings (updateSaveAction (updateCommandActions (updateMenus
    (updateRecentFileActions env w0))))

/-! ## Sequences of tab operations -/

/-- A call of one of the tab operations of the controller, with what the
outside world answers during the call. -/
inductive Op where
  | addChild (imageFileName : String)
  | closeActiveTab (accept : ChildWidget → Bool)
  | closeAllTabs (accept : ChildWidget → Bool)
  | handleClose (accept : ChildWidget → Bool) (i : Int)
  | nextTab
  | previousTab

/-- The window after one call. -/
def applyOp (env : Env) (w : MainWindow) : Op → MainWindow
  | .addChild f => addChild env w f
  | .closeActiveTab accept => (closeActiveTab accept w).2
  | .closeAllTabs accept => (closeAllTabs accept w).2
  | .handleClose accept i => handleClose accept w i
  | .nextTab => nextTab w
  | .previousTab => previousTab w

/-- The window after a sequence of calls, first call first. -/
def runOps (env : Env) (w : MainWindow) (ops : List Op) : MainWindow :=
  ops.foldl (applyOp env) w

/-- The canonical paths of the open tabs, in tab order. -/
def canonicalPaths (w : MainWindow) : List String :=
  w.tabWidget.tabs.map (fun t => t.widget.canonicalImageFileName)

/-- The flags `updateMenus` writes, in source order: the enabled flag of each
document-dependent action and the visibility of the view-menu separator. -/
def menuFlags (w : MainWindow) : List Bool :=
  [w.saveAsAct.enabled, w.importSymAct.enabled, w.closeAct.enabled, w.closeAllAct.enabled,
   w.nextAct.enabled, w.previousAct.enabled, w.separatorAct.visible,
   w.zoomOriginalAct.enabled, w.zoomInAct.enabled, w.zoomOutAct.enabled,
   w.zoomToFitAct.enabled, w.zoomToHeightAct.enabled, w.zoomToWidthAct.enabled,
   w.zoomToSelectionAct.enabled, w.showSymbolAct.enabled, w.goToRowAct.enabled,
   w.drawBoxesAct.enabled, w.DirectTypingAct.enabled]

/-! ## The update check -/

/-- A value of the C++ type `float` as its comparisons see it: not a number,
an infinity, or a finite number.  The sign of zero, which no comparison
observes, is not kept. -/
inductive CFloat where
  | nan
  | negInf
  | posInf
  | finite (q : ℚ)
deriving DecidableEq

/-- The operator `==` on `float` (IEEE 754): not-a-number equals nothing. -/
def CFloat.eq : CFloat → CFloat → Bool
  | .nan, _ => false
  | _, .nan => false
  | .negInf, .negInf => true
  | .posInf, .posInf => true
  | .finite a, .finite b => decide (a = b)
  | _, _ => false

/-- The operator `>` on `float` (IEEE 754): false when either side is not a
number. -/
def CFloat.gt : CFloat → CFloat → Bool
  | .nan, _ => false
  | _, .nan => false
  | .posInf, .posInf => false
  | .posInf, _ => true
  | _, .posInf => false
  | .negInf, _ => false
  | .finite _, .negInf => true
  | .finite a, .finite b => decide (b < a)

/-- The operator `<` on `float`. -/
def CFloat.lt (a b : CFloat) : Bool := CFloat.gt b a

/-- The reply of the update request, as far as `checkVersion` reads it. -/
structure QNetworkReply where
  /-- The value of `error()`; 0 is `QNetworkReply::NoError`. -/
  error : Nat
  errorString : String
  /-- The text `QString(reply->readAll())`. -/
  body : String

/-- What `checkVersion` takes from outside MainWindow.cpp. -/
structure UpdateEnv where
  /-- The macro `VERSION`. -/
  VERSION : String
  /-- The macro `PROJECT_URL`. -/
  PROJECT_URL : String
  /-- `QString::toFloat`. -/
  toFloat : String → CFloat
  /-- The text `QString::arg(double)` substitutes for a value. -/
  floatArg : CFloat → String

/-- A modal message shown with `QMessageBox::information` or
`QMessageBox::critical`: title and text. -/
inductive QMessageBox where
  | information (title text : String)
  | critical (title text : String)
deriving DecidableEq, Repr

/-- Whether the characters start with "dev" in any letter case. -/
def startsWithDev : List Char → Bool
  | c1 :: c2 :: c3 :: _ => c1.toLower == 'd' && c2.toLower == 'e' && c3.toLower == 'v'
  | _ => false

/-- `replace("dev", "", Qt::CaseInsensitive)` on the characters of a string:
every occurrence found from left to right is left out.  `skip` counts the
characters of a found occurrence still to be left out. -/
def removeDev : Nat → List Char → List Char
  | _, [] => []
  | skip + 1, _ :: tail => removeDev skip tail
  | 0, c :: tail =>
    if startsWithDev (c :: tail) then removeDev 2 tail else c :: removeDev 0 tail

/-- `MainWindow::checkVersion` (lines 394-422): the message boxes it shows, in
order. -/
def checkVersion (env : UpdateEnv) (reply : QNetworkReply) : List QMessageBox :=
  if reply.error = 0 then
    let current_version := env.toFloat reply.body
    let app_version := env.toFloat (String.mk (removeDev 0 env.VERSION.data))
    let messageText :=
      if app_version.eq current_version then "<p>No newer version is available.</p>"
      else if app_version.gt current_version then
        "<p>Your version ('" ++ env.VERSION ++ "') is higher than " ++
        "released stable version ('" ++ env.floatArg current_version ++ "')." ++
        "</p><p>Do you use develepment version? " ++
        "Don't forget to install stable version manually!</p>"
      else
        "<p>New version '" ++ env.floatArg current_version ++
        "' is available!<br/>Please visit " ++
        "<a href=" ++ env.PROJECT_URL ++ "/downloads>downloads on project homepage!</a></p>"
    [QMessageBox.information "Version info" messageText]
  else [QMessageBox.critical "Network" ("ERROR: " ++ reply.errorString)]

/-! ## The tab widget invariant and instrumented loops -/

/-- What Qt keeps true of a tab widget: without pages the current index is
-1, with pages it is the index of one of them. -/
def QTabWidget.valid (t : QTabWidget) : Bool :=
  if t.tabs.isEmpty then decide (t.currentIndex = -1)
  else decide (0 ≤ t.currentIndex ∧ t.currentIndex < t.count)

/-- The documents whose `close()` is called during `closeAllTabs`, in call
order: the loop of `closeAllTabs` with the document asked in each iteration
written down. -/
def closeAllTabsAsked (accept : ChildWidget → Bool) (w : MainWindow) : List ChildWidget :=
  if h : (w.tabWidget.currentWidget).isSome = true then
    if h2 : (closeActiveTab accept w).1 = true then
      w.tabWidget.currentWidget.toList ++
        closeAllTabsAsked accept (closeActiveTab accept w).2
    else w.tabWidget.currentWidget.toList
  else []
termination_by w.tabWidget.tabs.length
decreasing_by
  simp only [closeActiveTab] at h2 ⊢
  cases hcw : w.tabWidget.currentWidget with
  | none => simp [hcw] at h
  | some c =>
    simp only [hcw] at h2 ⊢
    by_cases ha : accept c = true
    · have h0 : 0 ≤ w.tabWidget.currentIndex := by
        by_contra hneg
        simp [QTabWidget.currentWidget, QTabWidget.widget, hneg] at hcw
      have hlt : w.tabWidget.currentIndex.toNat < w.tabWidget.tabs.length := by
        by_contra hge
        have hnone : w.tabWidget.tabs[w.tabWidget.currentIndex.toNat]? = none :=
          List.getElem?_eq_none (by omega)
        simp [QTabWidget.currentWidget, QTabWidget.widget, h0, hnone] at hcw
      have hidx : w.tabWidget.currentIndex < w.tabWidget.count := by
        simp only [QTabWidget.count]
        omega
      simp only [ha, if_true, QTabWidget.removeTab, h0, hidx, and_self,
        List.length_eraseIdx, hlt]
      omega
    · simp [ha] at h2

/-- `MainWindow::updateRecentFileActions` with every subscript checked against
its array: `none` as soon as `files[i]` or `recentFileActs[i]` lies outside,
otherwise the window `updateRecentFileActions` gives. -/
def updateRecentFileActionsChecked (env : Env) (w : MainWindow) : Option MainWindow :=
  let settings := QSettings.ofStore w.settings
  let files := (settings.value "recentFileList").toStringList
  let numRecentFiles := min files.length env.MaxRecentFiles
  let acts1 := (List.range numRecentFiles).foldlM
    (fun acts i =>
      if i < files.length ∧ i < acts.length then
        let text := "&" ++ toString (i + 1) ++ " " ++ fileName (files.getD i "")
        some (acts.modify
          (fun a => ((a.setText text).setData (.string (files.getD i ""))).setVisible true) i)
      else none)
    w.recentFileActs
  let acts2 := acts1.bind (fun acts =>
    (List.range' numRecentFiles (env.MaxRecentFiles - numRecentFiles)).foldlM
      (fun acts j =>
        if j < acts.length then some (acts.modify (fun a => a.setVisible false) j) else none)
      acts)
  acts2.map (fun acts =>
    { w with
      recentFileActs := acts
      fSeparatorAct := w.fSeparatorAct.setVisible (decide (numRecentFiles > 0)) })

/-- An environment of the update check: the application is version 1.09dev,
`toFloat` knows four texts and gives 0 for any other, as Qt does for a text
that is not a number. -/
def demoUpdateEnv : UpdateEnv :=
  { VERSION := "1.09dev"
    PROJECT_URL := "http://example.org/qbe"
    toFloat := fun s =>
      if s = "1.09" then CFloat.finite (109 / 100)
      else if s = "1.10" then CFloat.finite (110 / 100)
      else if s = "1.08" then CFloat.finite (108 / 100)
      else if s = "nan" then CFloat.nan
      else CFloat.finite 0
    floatArg := fun x =>
      if x = CFloat.finite (110 / 100) then "1.1"
      else if x = CFloat.finite (108 / 100) then "1.08"
      else if x = CFloat.finite (109 / 100) then "1.09"
      else if x = CFloat.nan then "nan"
      else "0" }

/-! ## A concrete environment and window -/

/-- A small file system: two names of one scan, one further scan; any other
name does not resolve. -/
def demoCanonical (f : String) : String :=
  if f = "a.tif" then "/scans/a.tif"
  else if f = "link.tif" then "/scans/a.tif"
  else if f = "b.tif" then "/scans/b.tif"
  else ""

/-- A freshly loaded, unmodified document. -/
def demoChild (canonical : String) : ChildWidget :=
  { canonicalImageFileName := canonical
    userFriendlyCurrentFile := fileName canonical
    currentBoxFile := canonical ++ ".box"
    isModified := false
    isBoxSelected := false
    isBold := false
    isItalic := false
    isUnderLine := false
    isShowSymbol := false
    isDrawBoxes := false
    directTypingMode := false
    getSymbolHexCode := ""
    getBoxSize := ""
    getZoom := "" }

/-- An environment over `demoCanonical` with room for two recent files; an
image loads exactly when its name resolves. -/
def demoEnv : Env :=
  { canonicalFilePath := demoCanonical
    absolutePath := fun _ => "/scans"
    loadImage := fun f =>
      if demoCanonical f = "" then none else some (demoChild (demoCanonical f))
    MaxRecentFiles := 2 }

/-- The window right after construction on an empty settings store. -/
def demoWindow : MainWindow :=
  MainWindow.new demoEnv (fun _ => QVariant.invalid) [1, 2] [3]

/-! ## Auxiliary facts -/

theorem removeLastWhile_eq_take (m : Nat) (files : List String) :
    removeLastWhile m files = files.take m := by
  induction files using List.reverseRecOn generalizing m with
  | nil => rw [removeLastWhile]; simp
  | append_singleton l a ih =>
    rw [removeLastWhile]
    by_cases h : m < (l ++ [a]).length
    · rw [if_pos h, List.dropLast_concat, ih]
      simp only [List.length_append, List.length_singleton] at h
      rw [List.take_append_of_le_length (by omega)]
    · rw [if_neg h]
      exact (List.take_of_length_le (by omega)).symm

theorem fullKey_ofStore (st : Store) (key : String) :
    (QSettings.ofStore st).fullKey key = key := by
  simp [QSettings.fullKey, QSettings.ofStore, String.join]

theorem setCurrentIndex_tabs (t : QTabWidget) (i : Int) :
    (t.setCurrentIndex i).tabs = t.tabs := by
  unfold QTabWidget.setCurrentIndex
  split <;> rfl

theorem removeTab_sublist (t : QTabWidget) (i : Int) :
    (t.removeTab i).tabs.Sublist t.tabs := by
  unfold QTabWidget.removeTab
  split
  · exact List.eraseIdx_sublist _ _
  · exact List.Sublist.refl _

theorem updateRecentFileActions_tabWidget (env : Env) (w : MainWindow) :
    (updateRecentFileActions env w).tabWidget = w.tabWidget := rfl

theorem updateRecentFileActions_settings (env : Env) (w : MainWindow) :
    (updateRecentFileActions env w).settings = w.settings := rfl

theorem addChildScan_none (c : String) (tabs : List Tab) (i : Nat) :
    addChildScan c tabs i = none ↔
      c ∉ tabs.map (fun t => t.widget.canonicalImageFileName) := by
  induction tabs generalizing i with
  | nil => simp [addChildScan]
  | cons t rest ih =>
    simp only [addChildScan, List.map_cons, List.mem_cons, not_or]
    by_cases h : c = t.widget.canonicalImageFileName
    · simp [h]
    · simp [h, ih]

theorem addChildScan_some (c : String) (tabs : List Tab) (i k : Nat)
    (h : addChildScan c tabs i = some k) :
    i ≤ k ∧ k - i < tabs.length ∧
      (tabs.get? (k - i)).map (fun t => t.widget.canonicalImageFileName) = some c ∧
      ∀ j, j < k - i →
        (tabs.get? j).map (fun t => t.widget.canonicalImageFileName) ≠ some c := by
  induction tabs generalizing i with
  | nil => simp [addChildScan] at h
  | cons t rest ih =>
    simp only [addChildScan] at h
    by_cases hc : c = t.widget.canonicalImageFileName
    · simp only [hc, if_true, Option.some.injEq] at h
      subst h
      simp [hc]
    · simp only [hc, if_false] at h
      obtain ⟨h1, h2, h3, h4⟩ := ih (i + 1) h
      have hk : k - i = (k - (i + 1)) + 1 := by omega
      refine ⟨by omega, by simp only [List.length_cons]; omega, ?_, ?_⟩
      · rw [hk]
        simpa using h3
      · intro j hj
        cases j with
        | zero =>
          simp only [List.get?_cons_zero, Option.map_some', ne_eq, Option.some.injEq]
          exact fun h => hc h.symm
        | succ j =>
          simp only [List.get?_cons_succ]
          exact h4 j (by omega)

theorem addChild_open (env : Env) (w : MainWindow) (f : String) (hf : f ≠ "") (i : Nat)
    (h : addChildScan (env.canonicalFilePath f) w.tabWidget.tabs 0 = some i) :
    addChild env w f = { w with tabWidget := w.tabWidget.setCurrentIndex i } := by
  simp [addChild, hf, h]

theorem addChild_failed (env : Env) (w : MainWindow) (f : String) (hf : f ≠ "")
    (hscan : addChildScan (env.canonicalFilePath f) w.tabWidget.tabs 0 = none)
    (hload : env.loadImage f = none) :
    addChild env w f = { w with childrenCreated := w.childrenCreated + 1 } := by
  simp [addChild, hf, hscan, hload]

theorem addChild_new_tabs (env : Env) (w : MainWindow) (f : String) (c : ChildWidget)
    (hf : f ≠ "")
    (hscan : addChildScan (env.canonicalFilePath f) w.tabWidget.tabs 0 = none)
    (hload : env.loadImage f = some c) :
    (addChild env w f).tabWidget.tabs =
      w.tabWidget.tabs ++ [{ widget := c, text := c.userFriendlyCurrentFile }] := by
  simp [addChild, hf, hscan, hload, updateRecentFileActions_tabWidget,
    setCurrentIndex_tabs, QTabWidget.addTab]

theorem addChild_new_settings (env : Env) (w : MainWindow) (f : String) (c : ChildWidget)
    (hf : f ≠ "")
    (hscan : addChildScan (env.canonicalFilePath f) w.tabWidget.tabs 0 = none)
    (hload : env.loadImage f = some c) :
    (addChild env w f).settings = fun k =>
      if k = "recentFileList" then
        QVariant.stringList
          ((f :: (w.settings "recentFileList").toStringList.filter (fun x => x != f)).take
            env.MaxRecentFiles)
      else if k = "last_path" then QVariant.string (env.absolutePath f)
      else w.settings k := by
  have hne : ("recentFileList" : String) ≠ "last_path" := by decide
  simp [addChild, hf, hscan, hload, updateRecentFileActions_settings,
    QSettings.setValue, QSettings.value, fullKey_ofStore, removeLastWhile_eq_take, hne]
  rfl

theorem closeActiveTab_sublist (accept : ChildWidget → Bool) (w : MainWindow) :
    (closeActiveTab accept w).2.tabWidget.tabs.Sublist w.tabWidget.tabs := by
  unfold closeActiveTab
  split
  · split
    · exact removeTab_sublist _ _
    · exact List.Sublist.refl _
  · exact List.Sublist.refl _

theorem closeAllTabs_sublist (accept : ChildWidget → Bool) (w : MainWindow) :
    (closeAllTabs accept w).2.tabWidget.tabs.Sublist w.tabWidget.tabs := by
  induction w using closeAllTabs.induct accept with
  | case1 w h h2 ih =>
    rw [closeAllTabs, dif_pos h, dif_pos h2]
    exact ih.trans (closeActiveTab_sublist accept w)
  | case2 w h h2 =>
    rw [closeAllTabs, dif_pos h, dif_neg h2]
    exact closeActiveTab_sublist accept w
  | case3 w h =>
    rw [closeAllTabs, dif_neg h]

theorem handleClose_sublist (accept : ChildWidget → Bool) (w : MainWindow) (i : Int) :
    (handleClose accept w i).tabWidget.tabs.Sublist w.tabWidget.tabs := by
  unfold handleClose
  have h1 : (match w.tabWidget.widget i with
      | some c => if accept c then { w with tabWidget := w.tabWidget.removeTab i } else w
      | none => w).tabWidget.tabs.Sublist w.tabWidget.tabs := by
    split
    · split
      · exact removeTab_sublist _ _
      · exact List.Sublist.refl _
    · exact List.Sublist.refl _
  simp only
  split <;> exact h1

theorem nextTab_tabs (w : MainWindow) : (nextTab w).tabWidget.tabs = w.tabWidget.tabs := by
  unfold nextTab
  split
  · exact setCurrentIndex_tabs _ _
  · rfl

theorem previousTab_tabs (w : MainWindow) :
    (previousTab w).tabWidget.tabs = w.tabWidget.tabs := by
  unfold previousTab
  split
  · exact setCurrentIndex_tabs _ _
  · rfl

theorem canonicalPaths_nodup_of_sublist (w1 w2 : MainWindow)
    (h : w1.tabWidget.tabs.Sublist w2.tabWidget.tabs) (hn : (canonicalPaths w2).Nodup) :
    (canonicalPaths w1).Nodup :=
  List.Nodup.sublist (h.map _) hn

theorem addChild_nodup (env : Env)
    (hload : ∀ f c, env.loadImage f = some c →
      c.canonicalImageFileName = env.canonicalFilePath f)
    (w : MainWindow) (f : String) (hn : (canonicalPaths w).Nodup) :
    (canonicalPaths (addChild env w f)).Nodup := by
  by_cases hf : f = ""
  · simpa [addChild, hf] using hn
  · cases hscan : addChildScan (env.canonicalFilePath f) w.tabWidget.tabs 0 with
    | some i =>
      rw [addChild_open env w f hf i hscan]
      simpa [canonicalPaths, setCurrentIndex_tabs] using hn
    | none =>
      cases hl : env.loadImage f with
      | none =>
        rw [addChild_failed env w f hf hscan hl]
        exact hn
      | some c =>
        have hnotin := (addChildScan_none _ _ _).mp hscan
        unfold canonicalPaths at hn ⊢
        rw [addChild_new_tabs env w f c hf hscan hl, List.map_append, List.map_singleton]
        rw [hload f c hl]
        exact List.Nodup.append hn (List.nodup_singleton _)
          (by simpa [List.disjoint_singleton] using hnotin)

theorem applyOp_nodup (env : Env)
    (hload : ∀ f c, env.loadImage f = some c →
      c.canonicalImageFileName = env.canonicalFilePath f)
    (w : MainWindow) (op : Op) (hn : (canonicalPaths w).Nodup) :
    (canonicalPaths (applyOp env w op)).Nodup := by
  cases op with
  | addChild f => exact addChild_nodup env hload w f hn
  | closeActiveTab accept =>
    exact canonicalPaths_nodup_of_sublist _ _ (closeActiveTab_sublist accept w) hn
  | closeAllTabs accept =>
    exact canonicalPaths_nodup_of_sublist _ _ (closeAllTabs_sublist accept w) hn
  | handleClose accept i =>
    exact canonicalPaths_nodup_of_sublist _ _ (handleClose_sublist accept w i) hn
  | nextTab =>
    simpa [applyOp, canonicalPaths, nextTab_tabs] using hn
  | previousTab =>
    simpa [applyOp, canonicalPaths, previousTab_tabs] using hn

theorem runOps_nodup (env : Env)
    (hload : ∀ f c, env.loadImage f = some c →
      c.canonicalImageFileName = env.canonicalFilePath f)
    (ops : List Op) (w : MainWindow) (hn : (canonicalPaths w).Nodup) :
    (canonicalPaths (runOps env w ops)).Nodup := by
  induction ops generalizing w with
  | nil => exact hn
  | cons op rest ih =>
    simp only [runOps, List.foldl_cons]
    exact ih _ (applyOp_nodup env hload w op hn)

theorem demoEnv_reports_canonical (f : String) (c : ChildWidget)
    (h : demoEnv.loadImage f = some c) :
    c.canonicalImageFileName = demoEnv.canonicalFilePath f := by
  simp only [demoEnv] at h ⊢
  split at h
  · cases h
  · cases h
    rfl

/-- C1. Tab uniqueness: when every document loaded from a file name reports
the canonical path of that name, then starting from a window without tabs, no
two tabs have the same canonical path after any sequence of addChild,
closeActiveTab, closeAllTabs, handleClose, nextTab and previousTab calls. -/
theorem C1_tab_uniqueness (env : Env)
    (hload : ∀ f c, env.loadImage f = some c →
      c.canonicalImageFileName = env.canonicalFilePath f)
    (w : MainWindow) (hw : w.tabWidget.tabs = []) (ops : List Op) :
    (canonicalPaths (runOps env w ops)).Nodup := by
  apply runOps_nodup env hload ops w
  simp [canonicalPaths, hw]

theorem C1_tab_uniqueness_witness :
    demoWindow.tabWidget.tabs = [] ∧
    (canonicalPaths (runOps demoEnv demoWindow
      [Op.addChild "a.tif", Op.addChild "b.tif", Op.addChild "link.tif",
       Op.previousTab, Op.closeActiveTab (fun _ => true), Op.addChild "a.tif",
       Op.handleClose (fun _ => false) 0, Op.nextTab,
       Op.closeAllTabs (fun c => c.isModified)])).Nodup :=
  ⟨by decide, C1_tab_uniqueness demoEnv demoEnv_reports_canonical demoWindow (by decide) _⟩

/-- C2. For a non-empty file name whose canonical path is reported by some
open tab, addChild constructs no document, leaves the tab list as it is and
makes the first tab with that canonical path the current one; nothing else in
the window changes. -/
theorem C2_addChild_activates_existing_tab (env : Env) (w : MainWindow) (f : String)
    (hf : f ≠ "") (hopen : env.canonicalFilePath f ∈ canonicalPaths w) :
    ∃ i : Nat, i < w.tabWidget.tabs.length ∧
      (w.tabWidget.tabs.get? i).map (fun t => t.widget.canonicalImageFileName) =
        some (env.canonicalFilePath f) ∧
      (∀ j, j < i →
        (w.tabWidget.tabs.get? j).map (fun t => t.widget.canonicalImageFileName) ≠
          some (env.canonicalFilePath f)) ∧
      (addChild env w f).tabWidget.currentIndex = (i : Int) ∧
      (addChild env w f).tabWidget.tabs = w.tabWidget.tabs ∧
      (addChild env w f).childrenCreated = w.childrenCreated ∧
      addChild env w f =
        { w with tabWidget := { w.tabWidget with currentIndex := (i : Int) } } := by
  cases hscan : addChildScan (env.canonicalFilePath f) w.tabWidget.tabs 0 with
  | none => exact absurd hopen ((addChildScan_none _ _ _).mp hscan)
  | some i =>
    obtain ⟨_, h2, h3, h4⟩ := addChildScan_some _ _ _ _ hscan
    simp only [Nat.sub_zero] at h2 h3 h4
    have hset : w.tabWidget.setCurrentIndex (i : Int) =
        { w.tabWidget with currentIndex := (i : Int) } := by
      have hlt : (i : Int) < w.tabWidget.count := by
        simp only [QTabWidget.count]
        omega
      simp [QTabWidget.setCurrentIndex, hlt]
    refine ⟨i, h2, h3, h4, ?_, ?_, ?_, ?_⟩ <;>
      rw [addChild_open env w f hf i hscan, hset]

theorem C2_addChild_activates_existing_tab_witness :
    (addChild demoEnv (runOps demoEnv demoWindow [Op.addChild "a.tif", Op.addChild "b.tif"])
        "link.tif").tabWidget.currentIndex = 0 ∧
    (addChild demoEnv (runOps demoEnv demoWindow [Op.addChild "a.tif", Op.addChild "b.tif"])
        "link.tif").tabWidget.tabs =
      (runOps demoEnv demoWindow [Op.addChild "a.tif", Op.addChild "b.tif"]).tabWidget.tabs := by
  obtain ⟨i, h1, h2, _, h4, h5, _⟩ :=
    C2_addChild_activates_existing_tab demoEnv
      (runOps demoEnv demoWindow [Op.addChild "a.tif", Op.addChild "b.tif"]) "link.tif"
      (by decide) (by decide)
  refine ⟨?_, h5⟩
  rw [h4]
  have hlen : (runOps demoEnv demoWindow
      [Op.addChild "a.tif", Op.addChild "b.tif"]).tabWidget.tabs.length = 2 := by decide
  rw [hlen] at h1
  interval_cases i
  · rfl
  · exact absurd h2 (by decide)

theorem addChild_new_recentFileList (env : Env) (w : MainWindow) (f : String)
    (c : ChildWidget) (hf : f ≠ "")
    (hnew : env.canonicalFilePath f ∉ canonicalPaths w)
    (hload : env.loadImage f = some c) :
    (addChild env w f).settings "recentFileList" =
      QVariant.stringList
        ((f :: (w.settings "recentFileList").toStringList.filter
          (fun x => decide (x ≠ f))).take env.MaxRecentFiles) := by
  have hscan := (addChildScan_none (env.canonicalFilePath f) w.tabWidget.tabs 0).mpr hnew
  have hfilter : (fun x : String => x != f) = (fun x => decide (x ≠ f)) := by
    funext x
    by_cases h : x = f <;> simp [h]
  rw [addChild_new_settings env w f c hf hscan hload, hfilter]
  simp

/-- C3. Move-to-front on open: when addChild opens a file name in a new tab
and MaxRecentFiles is at least 1, the recent-files list stored afterwards
starts with that file name and contains it exactly once, whatever was stored
before. -/
theorem C3_recent_files_move_to_front (env : Env) (w : MainWindow) (f : String)
    (c : ChildWidget) (hf : f ≠ "")
    (hnew : env.canonicalFilePath f ∉ canonicalPaths w)
    (hload : env.loadImage f = some c)
    (hmax : 1 ≤ env.MaxRecentFiles) :
    ∃ stored : List String,
      (addChild env w f).settings "recentFileList" = QVariant.stringList stored ∧
      stored.head? = some f ∧ stored.count f = 1 := by
  refine ⟨_, addChild_new_recentFileList env w f c hf hnew hload, ?_, ?_⟩
  · obtain ⟨n, hn⟩ : ∃ n, env.MaxRecentFiles = n + 1 := ⟨env.MaxRecentFiles - 1, by omega⟩
    rw [hn]
    rfl
  · obtain ⟨n, hn⟩ : ∃ n, env.MaxRecentFiles = n + 1 := ⟨env.MaxRecentFiles - 1, by omega⟩
    rw [hn, List.take_succ_cons, List.count_cons_self, Nat.add_left_eq_self]
    apply List.count_eq_zero.mpr
    intro hmem
    have hmem2 := List.mem_of_mem_take hmem
    simp at hmem2

theorem C3_recent_files_move_to_front_witness :
    ∃ stored : List String,
      (addChild demoEnv (runOps demoEnv demoWindow [Op.addChild "a.tif"]) "b.tif").settings
        "recentFileList" = QVariant.stringList stored ∧
      stored.head? = some "b.tif" ∧ stored.count "b.tif" = 1 :=
  C3_recent_files_move_to_front demoEnv (runOps demoEnv demoWindow [Op.addChild "a.tif"])
    "b.tif" (demoChild "/scans/b.tif") (by decide) (by decide) (by decide) (by decide)

/-- C4. Bounded capacity: when addChild opens a file name in a new tab, the
recent-files list stored afterwards has at most MaxRecentFiles entries,
whatever was stored before (also a list longer than MaxRecentFiles). -/
theorem C4_recent_files_bounded (env : Env) (w : MainWindow) (f : String)
    (c : ChildWidget) (hf : f ≠ "")
    (hnew : env.canonicalFilePath f ∉ canonicalPaths w)
    (hload : env.loadImage f = some c) :
    ∃ stored : List String,
      (addChild env w f).settings "recentFileList" = QVariant.stringList stored ∧
      stored.length ≤ env.MaxRecentFiles :=
  ⟨_, addChild_new_recentFileList env w f c hf hnew hload, List.length_take_le _ _⟩

/-- A window whose store already holds four recent files, two more than
`demoEnv` allows. -/
theorem C4_recent_files_bounded_witness :
    ∃ stored : List String,
      (addChild demoEnv
          { demoWindow with settings := fun k =>
              if k = "recentFileList" then
                QVariant.stringList ["w.tif", "x.tif", "y.tif", "z.tif"]
              else QVariant.invalid }
          "a.tif").settings "recentFileList" = QVariant.stringList stored ∧
      stored.length ≤ demoEnv.MaxRecentFiles :=
  C4_recent_files_bounded demoEnv _ "a.tif" (demoChild "/scans/a.tif")
    (by decide) (by decide) (by decide)

/-- C5. Truncate on overflow: when addChild opens file name f in a new tab
over a stored list old, the list stored afterwards is the first
MaxRecentFiles elements of f followed by old without every occurrence of f;
so it is an initial segment of that list (what is dropped comes after all that
is kept), and its entries other than f appear in the order they have in
old. -/
theorem C5_recent_files_truncate (env : Env) (w : MainWindow) (f : String)
    (c : ChildWidget) (hf : f ≠ "")
    (hnew : env.canonicalFilePath f ∉ canonicalPaths w)
    (hload : env.loadImage f = some c) :
    ∃ stored : List String,
      (addChild env w f).settings "recentFileList" = QVariant.stringList stored ∧
      stored =
        (f :: (w.settings "recentFileList").toStringList.filter
          (fun x => decide (x ≠ f))).take env.MaxRecentFiles ∧
      stored <+:
        f :: (w.settings "recentFileList").toStringList.filter (fun x => decide (x ≠ f)) ∧
      (stored.filter (fun x => decide (x ≠ f))).Sublist
        (w.settings "recentFileList").toStringList := by
  refine ⟨_, addChild_new_recentFileList env w f c hf hnew hload, rfl,
    List.take_prefix _ _, ?_⟩
  have h1 : (List.filter (fun x => decide (x ≠ f))
      ((f :: (w.settings "recentFileList").toStringList.filter
        (fun x => decide (x ≠ f))).take env.MaxRecentFiles)).Sublist
      (List.filter (fun x => decide (x ≠ f))
        (f :: (w.settings "recentFileList").toStringList.filter
          (fun x => decide (x ≠ f)))) :=
    (List.take_sublist _ _).filter _
  have h2 : List.filter (fun x => decide (x ≠ f))
      (f :: (w.settings "recentFileList").toStringList.filter (fun x => decide (x ≠ f))) =
      (w.settings "recentFileList").toStringList.filter (fun x => decide (x ≠ f)) := by
    simp [List.filter_cons]
  rw [h2] at h1
  exact h1.trans (List.filter_sublist _)

theorem C5_recent_files_truncate_witness :
    ∃ stored : List String,
      (addChild demoEnv
          { demoWindow with settings := fun k =>
              if k = "recentFileList" then
                QVariant.stringList ["x.tif", "a.tif", "y.tif", "a.tif"]
              else QVariant.invalid }
          "a.tif").settings "recentFileList" = QVariant.stringList stored ∧
      stored = ["a.tif", "x.tif"] := by
  obtain ⟨stored, h1, h2, _, _⟩ :=
    C5_recent_files_truncate demoEnv
      { demoWindow with settings := fun k =>
          if k = "recentFileList" then
            QVariant.stringList ["x.tif", "a.tif", "y.tif", "a.tif"]
          else QVariant.invalid }
      "a.tif" (demoChild "/scans/a.tif") (by decide) (by decide) (by decide)
  refine ⟨stored, h1, ?_⟩
  rw [h2]
  decide

theorem updateSaveAction_tabWidget (w : MainWindow) :
    (updateSaveAction w).tabWidget = w.tabWidget := rfl

theorem updateMenus_tabWidget (w : MainWindow) :
    (updateMenus w).tabWidget = w.tabWidget := rfl

theorem updateCommandActions_tabWidget (w : MainWindow) :
    (updateCommandActions w).tabWidget = w.tabWidget := by
  unfold updateCommandActions
  simp only
  split <;> rfl

theorem activeChild_congr (w1 w2 : MainWindow) (h : w1.tabWidget = w2.tabWidget) :
    activeChild w1 = activeChild w2 := by
  simp [activeChild, h]

theorem activeChild_of_no_tabs (w : MainWindow) (h : w.tabWidget.tabs = []) :
    activeChild w = none := by
  simp [activeChild, QTabWidget.currentWidget, QTabWidget.widget, h]

theorem childFlag_eq_true (w : MainWindow) (flag : ChildWidget → Bool) :
    childFlag w flag = true ↔ ∃ c, activeChild w = some c ∧ flag c = true := by
  unfold childFlag
  cases activeChild w <;> simp

/-- C6. After updateSaveAction the Save action is enabled exactly when the
tab widget has a current document and that document reports isModified(); in
particular Save is disabled when there are no tabs. -/
theorem C6_updateSaveAction_enabled (w : MainWindow) :
    ((updateSaveAction w).saveAct.enabled = true ↔
      ∃ c, activeChild (updateSaveAction w) = some c ∧ c.isModified = true) ∧
    ((updateSaveAction w).tabWidget.tabs = [] →
      (updateSaveAction w).saveAct.enabled = false) := by
  have hact : activeChild (updateSaveAction w) = activeChild w :=
    activeChild_congr _ _ (updateSaveAction_tabWidget w)
  have hen : (updateSaveAction w).saveAct.enabled = childFlag w ChildWidget.isModified := rfl
  rw [hact, hen, updateSaveAction_tabWidget]
  refine ⟨childFlag_eq_true w _, fun h => ?_⟩
  simp [childFlag, activeChild_of_no_tabs w h]

theorem C6_updateSaveAction_enabled_witness :
    demoWindow.tabWidget.tabs = [] ∧
    (updateSaveAction { demoWindow with saveAct := QAction.created }).saveAct.enabled = false :=
  ⟨by decide,
   (C6_updateSaveAction_enabled { demoWindow with saveAct := QAction.created }).2 (by decide)⟩

/-- C7. After updateMenus each document-dependent action (save-as, import
symbols, close, close all, next, previous, the seven zoom actions, show
symbol, go to row, draw boxes, direct typing) is enabled exactly when there is
an active document, and the view-menu separator is visible under the same
condition; two windows that agree on whether there is an active document get
the same values, whatever else differs. -/
theorem C7_updateMenus_enabled (w : MainWindow) :
    ((updateMenus w).saveAsAct.enabled = (activeChild (updateMenus w)).isSome ∧
     (updateMenus w).importSymAct.enabled = (activeChild (updateMenus w)).isSome ∧
     (updateMenus w).closeAct.enabled = (activeChild (updateMenus w)).isSome ∧
     (updateMenus w).closeAllAct.enabled = (activeChild (updateMenus w)).isSome ∧
     (updateMenus w).nextAct.enabled = (activeChild (updateMenus w)).isSome ∧
     (updateMenus w).previousAct.enabled = (activeChild (updateMenus w)).isSome ∧
     (updateMenus w).separatorAct.visible = (activeChild (updateMenus w)).isSome ∧
     (updateMenus w).zoomOriginalAct.enabled = (activeChild (updateMenus w)).isSome ∧
     (updateMenus w).zoomInAct.enabled = (activeChild (updateMenus w)).isSome ∧
     (updateMenus w).zoomOutAct.enabled = (activeChild (updateMenus w)).isSome ∧
     (updateMenus w).zoomToFitAct.enabled = (activeChild (updateMenus w)).isSome ∧
     (updateMenus w).zoomToHeightAct.enabled = (activeChild (updateMenus w)).isSome ∧
     (updateMenus w).zoomToWidthAct.enabled = (activeChild (updateMenus w)).isSome ∧
     (updateMenus w).zoomToSelectionAct.enabled = (activeChild (updateMenus w)).isSome ∧
     (updateMenus w).showSymbolAct.enabled = (activeChild (updateMenus w)).isSome ∧
     (updateMenus w).goToRowAct.enabled = (activeChild (updateMenus w)).isSome ∧
     (updateMenus w).drawBoxesAct.enabled = (activeChild (updateMenus w)).isSome ∧
     (updateMenus w).DirectTypingAct.enabled = (activeChild (updateMenus w)).isSome) ∧
    (∀ v : MainWindow, (activeChild v).isSome = (activeChild w).isSome →
      menuFlags (updateMenus v) = menuFlags (updateMenus w)) := by
  refine ⟨⟨rfl, rfl, rfl, rfl, rfl, rfl, rfl, rfl, rfl, rfl, rfl, rfl, rfl, rfl, rfl, rfl,
    rfl, rfl⟩, fun v hv => ?_⟩
  simp [menuFlags, updateMenus, QAction.setEnabled, QAction.setVisible, hv]

theorem C7_updateMenus_enabled_witness :
    (activeChild (runOps demoEnv demoWindow [Op.addChild "a.tif"])).isSome =
      (activeChild (runOps demoEnv demoWindow [Op.addChild "b.tif", Op.addChild "a.tif"])).isSome ∧
    menuFlags (updateMenus (runOps demoEnv demoWindow [Op.addChild "a.tif"])) =
      menuFlags
        (updateMenus (runOps demoEnv demoWindow [Op.addChild "b.tif", Op.addChild "a.tif"])) :=
  ⟨by decide,
   (C7_updateMenus_enabled
      (runOps demoEnv demoWindow [Op.addChild "b.tif", Op.addChild "a.tif"])).2
     (runOps demoEnv demoWindow [Op.addChild "a.tif"]) (by decide)⟩

theorem updateCommandActions_enabled (w : MainWindow) :
    (updateCommandActions w).boldAct.enabled = childFlag w ChildWidget.isBoxSelected ∧
    (updateCommandActions w).italicAct.enabled = childFlag w ChildWidget.isBoxSelected ∧
    (updateCommandActions w).underlineAct.enabled = childFlag w ChildWidget.isBoxSelected ∧
    (updateCommandActions w).moveUpAct.enabled = childFlag w ChildWidget.isBoxSelected ∧
    (updateCommandActions w).moveDownAct.enabled = childFlag w ChildWidget.isBoxSelected ∧
    (updateCommandActions w).moveToAct.enabled = childFlag w ChildWidget.isBoxSelected ∧
    (updateCommandActions w).insertAct.enabled = childFlag w ChildWidget.isBoxSelected ∧
    (updateCommandActions w).splitAct.enabled = childFlag w ChildWidget.isBoxSelected ∧
    (updateCommandActions w).joinAct.enabled = childFlag w ChildWidget.isBoxSelected ∧
    (updateCommandActions w).deleteAct.enabled = childFlag w ChildWidget.isBoxSelected := by
  unfold updateCommandActions
  simp only
  split <;> exact ⟨rfl, rfl, rfl, rfl, rfl, rfl, rfl, rfl, rfl, rfl⟩

theorem updateCommandActions_checked (w : MainWindow) :
    (updateCommandActions w).boldAct.checked = childFlag w ChildWidget.isBold ∧
    (updateCommandActions w).italicAct.checked = childFlag w ChildWidget.isItalic ∧
    (updateCommandActions w).underlineAct.checked = childFlag w ChildWidget.isUnderLine ∧
    (updateCommandActions w).showSymbolAct.checked = childFlag w ChildWidget.isShowSymbol ∧
    (updateCommandActions w).drawBoxesAct.checked = childFlag w ChildWidget.isDrawBoxes ∧
    (updateCommandActions w).DirectTypingAct.checked = w.DirectTypingAct.checked := by
  unfold updateCommandActions
  simp only
  split <;> exact ⟨rfl, rfl, rfl, rfl, rfl, rfl⟩

/-- C8. After updateCommandActions the box-editing actions (bold, italic,
underline, move up, move down, move to, insert, split, join, delete) all carry
one enabled flag, which is set exactly when there is an active document and it
reports isBoxSelected(); without an active document all of them are
disabled. -/
theorem C8_updateCommandActions_enabled (w : MainWindow) :
    ∃ enable : Bool,
      (enable = true ↔
        ∃ c, activeChild (updateCommandActions w) = some c ∧ c.isBoxSelected = true) ∧
      (activeChild (updateCommandActions w) = none → enable = false) ∧
      (updateCommandActions w).boldAct.enabled = enable ∧
      (updateCommandActions w).italicAct.enabled = enable ∧
      (updateCommandActions w).underlineAct.enabled = enable ∧
      (updateCommandActions w).moveUpAct.enabled = enable ∧
      (updateCommandActions w).moveDownAct.enabled = enable ∧
      (updateCommandActions w).moveToAct.enabled = enable ∧
      (updateCommandActions w).insertAct.enabled = enable ∧
      (updateCommandActions w).splitAct.enabled = enable ∧
      (updateCommandActions w).joinAct.enabled = enable ∧
      (updateCommandActions w).deleteAct.enabled = enable := by
  have hact : activeChild (updateCommandActions w) = activeChild w :=
    activeChild_congr _ _ (updateCommandActions_tabWidget w)
  refine ⟨childFlag w ChildWidget.isBoxSelected, ?_, ?_, updateCommandActions_enabled w⟩
  · rw [hact]
    exact childFlag_eq_true w _
  · rw [hact]
    intro h
    simp [childFlag, h]

theorem C8_updateCommandActions_enabled_witness :
    activeChild (updateCommandActions demoWindow) = none ∧
    (updateCommandActions demoWindow).boldAct.enabled = false ∧
    (updateCommandActions demoWindow).deleteAct.enabled = false := by
  obtain ⟨enable, _, h2, h3, _, _, _, _, _, _, _, _, h12⟩ :=
    C8_updateCommandActions_enabled demoWindow
  have hnone : activeChild (updateCommandActions demoWindow) = none := by decide
  exact ⟨hnone, h3.trans (h2 hnone), h12.trans (h2 hnone)⟩

theorem currentChanged_tabWidget (w : MainWindow) :
    (currentChanged w).tabWidget = w.tabWidget := by
  unfold currentChanged
  rw [updateSaveAction_tabWidget, updateCommandActions_tabWidget, updateMenus_tabWidget]

/-- After the slots of a tab-focus change, the checked state of bold, italic,
underline, show symbol and show boxes is the flag of the active document
(unchecked without one), while the checked state of the direct-typing action
is what it was before. -/
theorem currentChanged_checked (w : MainWindow) :
    (currentChanged w).boldAct.checked = childFlag w ChildWidget.isBold ∧
    (currentChanged w).italicAct.checked = childFlag w ChildWidget.isItalic ∧
    (currentChanged w).underlineAct.checked = childFlag w ChildWidget.isUnderLine ∧
    (currentChanged w).showSymbolAct.checked = childFlag w ChildWidget.isShowSymbol ∧
    (currentChanged w).drawBoxesAct.checked = childFlag w ChildWidget.isDrawBoxes ∧
    (currentChanged w).DirectTypingAct.checked = w.DirectTypingAct.checked := by
  have h := updateCommandActions_checked (updateMenus w)
  have hflag : ∀ flag, childFlag (updateMenus w) flag = childFlag w flag := fun _ => rfl
  simp only [hflag] at h
  exact h

/-- C9. The checked state of the direct-typing action is not derived from the
document in the newly focused tab.  Two documents are open, direct typing is
switched on while the first has the focus, then the focus moves to the second:
after the three slots have run, the second document is the active one, its
direct-typing flag is off, and the action is still checked.  Closing the only
tab of a window after switching direct typing on leaves the action checked
without any document. -/
theorem C9_direct_typing_checked_is_stale :
    ((activeChild (focusTab (triggerDirectTypingAct (focusTab
        (runOps demoEnv demoWindow [Op.addChild "a.tif", Op.addChild "b.tif"]) 0)) 1)).map
        ChildWidget.directTypingMode = some false ∧
     (focusTab (triggerDirectTypingAct (focusTab
        (runOps demoEnv demoWindow [Op.addChild "a.tif", Op.addChild "b.tif"]) 0)) 1
        ).DirectTypingAct.checked = true) ∧
    (activeChild (currentChanged (closeActiveTab (fun _ => true) (triggerDirectTypingAct
        (currentChanged (runOps demoEnv demoWindow [Op.addChild "a.tif"])))).2) = none ∧
     (currentChanged (closeActiveTab (fun _ => true) (triggerDirectTypingAct
        (currentChanged (runOps demoEnv demoWindow [Op.addChild "a.tif"])))).2
        ).DirectTypingAct.checked = true) := by
  decide

theorem writeSettings_settings (w : MainWindow) :
    (writeSettings w).settings = fun k =>
      if k = "mainWindow/state" then QVariant.byteArray w.state
      else if k = "mainWindow/geometry" then QVariant.byteArray w.geometry
      else w.settings k := by
  funext k
  simp only [writeSettings, QSettings.setValue, QSettings.endGroup]
  rfl

/-- C10. Settings round trip over the key-value store: readSettings on the
store left by writeSettings passes the written geometry to restoreGeometry and
the written layout state to restoreState; writeSettings stores them under
mainWindow/geometry and mainWindow/state and changes no other key. -/
theorem C10_settings_round_trip (w v : MainWindow)
    (hv : v.settings = (writeSettings w).settings) :
    (readSettings v).restoreGeometryArg = w.geometry ∧
    (readSettings v).restoreStateArg = w.state ∧
    (writeSettings w).settings "mainWindow/geometry" = QVariant.byteArray w.geometry ∧
    (writeSettings w).settings "mainWindow/state" = QVariant.byteArray w.state ∧
    (∀ k : String, k ≠ "mainWindow/geometry" → k ≠ "mainWindow/state" →
      (writeSettings w).settings k = w.settings k) := by
  have hne : ("mainWindow/geometry" : String) ≠ "mainWindow/state" := by decide
  have hg : (readSettings v).restoreGeometryArg =
      (v.settings "mainWindow/geometry").toByteArray := rfl
  have hs : (readSettings v).restoreStateArg =
      (v.settings "mainWindow/state").toByteArray := rfl
  rw [hg, hs, hv, writeSettings_settings]
  refine ⟨?_, ?_, ?_, ?_, ?_⟩
  · simp [hne, QVariant.toByteArray]
  · simp [QVariant.toByteArray]
  · simp [hne]
  · simp
  · intro k h1 h2
    simp [h1, h2]

theorem C10_settings_round_trip_witness :
    (readSettings
      (MainWindow.new demoEnv (writeSettings { demoWindow with geometry := [7, 8], state := [9] }).settings
        [] [])).restoreGeometryArg = [7, 8] ∧
    (readSettings
      (MainWindow.new demoEnv (writeSettings { demoWindow with geometry := [7, 8], state := [9] }).settings
        [] [])).restoreStateArg = [9] :=
  ⟨(C10_settings_round_trip { demoWindow with geometry := [7, 8], state := [9] }
      (MainWindow.new demoEnv
        (writeSettings { demoWindow with geometry := [7, 8], state := [9] }).settings [] [])
      rfl).1,
   (C10_settings_round_trip { demoWindow with geometry := [7, 8], state := [9] }
      (MainWindow.new demoEnv
        (writeSettings { demoWindow with geometry := [7, 8], state := [9] }).settings [] [])
      rfl).2.1⟩

theorem CFloat.eq_false_of_gt (a b : CFloat) (h : a.gt b = true) : a.eq b = false := by
  cases a <;> cases b <;> simp_all [CFloat.gt, CFloat.eq]
  exact fun hab => absurd h (by rw [hab]; exact lt_irrefl _)

theorem CFloat.eq_false_of_lt (a b : CFloat) (h : a.lt b = true) : a.eq b = false := by
  cases a <;> cases b <;> simp_all [CFloat.lt, CFloat.gt, CFloat.eq]
  exact fun hab => absurd h (by rw [hab]; exact lt_irrefl _)

theorem CFloat.gt_false_of_lt (a b : CFloat) (h : a.lt b = true) : a.gt b = false := by
  cases a <;> cases b <;> simp_all [CFloat.lt, CFloat.gt]
  exact le_of_lt h

/-- C11. Update check decision.  For a reply without network error, with a
the float parsed from VERSION without its occurrences of "dev" (any letter
case) and r the float parsed from the reply body, checkVersion shows exactly
one message box, an information box, whose text is the 'No newer version is
available' text when a == r, the 'Your version is higher than released stable
version' text when a > r, and the 'New version is available' text when a < r.
For a reply with a network error it shows exactly the critical box with the
error string and no version message. -/
theorem C11_checkVersion_decision (env : UpdateEnv) (reply : QNetworkReply) :
    (reply.error = 0 →
      ∃ text : String,
        checkVersion env reply = [QMessageBox.information "Version info" text] ∧
        ((env.toFloat (String.mk (removeDev 0 env.VERSION.data))).eq
            (env.toFloat reply.body) = true →
          text = "<p>No newer version is available.</p>") ∧
        ((env.toFloat (String.mk (removeDev 0 env.VERSION.data))).gt
            (env.toFloat reply.body) = true →
          text =
            "<p>Your version ('" ++ env.VERSION ++ "') is higher than " ++
            "released stable version ('" ++ env.floatArg (env.toFloat reply.body) ++ "')." ++
            "</p><p>Do you use develepment version? " ++
            "Don't forget to install stable version manually!</p>") ∧
        ((env.toFloat (String.mk (removeDev 0 env.VERSION.data))).lt
            (env.toFloat reply.body) = true →
          text =
            "<p>New version '" ++ env.floatArg (env.toFloat reply.body) ++
            "' is available!<br/>Please visit " ++
            "<a href=" ++ env.PROJECT_URL ++
            "/downloads>downloads on project homepage!</a></p>")) ∧
    (reply.error ≠ 0 →
      checkVersion env reply =
        [QMessageBox.critical "Network" ("ERROR: " ++ reply.errorString)]) := by
  constructor
  · intro herr
    unfold checkVersion
    rw [if_pos herr]
    refine ⟨_, rfl, ?_, ?_, ?_⟩
    · intro h
      simp only [h, if_true]
    · intro h
      simp only [CFloat.eq_false_of_gt _ _ h, h, if_true]
      simp
    · intro h
      simp only [CFloat.eq_false_of_lt _ _ h, CFloat.gt_false_of_lt _ _ h]
      simp
  · intro herr
    unfold checkVersion
    rw [if_neg herr]

theorem C11_checkVersion_decision_witness :
    checkVersion demoUpdateEnv { error := 0, errorString := "", body := "1.10" } =
      [QMessageBox.information "Version info"
        ("<p>New version '1.1' is available!<br/>Please visit " ++
         "<a href=http://example.org/qbe/downloads>downloads on project homepage!</a></p>")] ∧
    checkVersion demoUpdateEnv { error := 3, errorString := "Host not found", body := "" } =
      [QMessageBox.critical "Network" "ERROR: Host not found"] := by
  constructor
  · obtain ⟨text, h1, _, _, h4⟩ :=
      (C11_checkVersion_decision demoUpdateEnv
        { error := 0, errorString := "", body := "1.10" }).1 rfl
    rw [h1, h4 (by
      have hv : String.mk (removeDev 0 demoUpdateEnv.VERSION.data) = "1.09" := by decide
      rw [hv]
      simp [demoUpdateEnv, CFloat.lt, CFloat.gt]
      norm_num)]
    simp [demoUpdateEnv]
  · exact (C11_checkVersion_decision demoUpdateEnv
      { error := 3, errorString := "Host not found", body := "" }).2 (by decide)

theorem QTabWidget.valid_iff (t : QTabWidget) :
    t.valid = true ↔
      (t.tabs = [] ∧ t.currentIndex = -1) ∨
      (t.tabs ≠ [] ∧ 0 ≤ t.currentIndex ∧ t.currentIndex < (t.tabs.length : Int)) := by
  unfold QTabWidget.valid QTabWidget.count
  cases ht : t.tabs with
  | nil => simp
  | cons a l => simp

theorem setCurrentIndex_valid (t : QTabWidget) (i : Int) (h : t.valid = true) :
    (t.setCurrentIndex i).valid = true := by
  unfold QTabWidget.setCurrentIndex
  split
  · rename_i hi
    rw [QTabWidget.valid_iff]
    right
    simp only [QTabWidget.count] at hi
    refine ⟨?_, hi.1, hi.2⟩
    intro hnil
    have hnil2 : t.tabs = [] := hnil
    rw [hnil2] at hi
    simp only [List.length_nil, Nat.cast_zero] at hi
    omega
  · exact h

theorem addTab_valid (t : QTabWidget) (c : ChildWidget) (s : String) (h : t.valid = true) :
    (t.addTab c s).1.valid = true := by
  rw [QTabWidget.valid_iff] at h ⊢
  right
  simp only [QTabWidget.addTab, List.length_append, List.length_singleton, Nat.cast_add,
    Nat.cast_one]
  refine ⟨by simp, ?_⟩
  rcases h with ⟨h1, _⟩ | ⟨h1, h2, h3⟩
  · simp [h1]
  · have hlen : t.tabs.length ≠ 0 := fun h0 => h1 (List.length_eq_zero.mp h0)
    simp only [hlen, if_false]
    omega

theorem removeTab_valid (t : QTabWidget) (i : Int) (h : t.valid = true) :
    (t.removeTab i).valid = true := by
  unfold QTabWidget.removeTab
  split
  · rename_i hi
    simp only [QTabWidget.count] at hi
    have hlt : i.toNat < t.tabs.length := by omega
    rw [QTabWidget.valid_iff] at h ⊢
    have hlen : (t.tabs.eraseIdx i.toNat).length = t.tabs.length - 1 := by
      rw [List.length_eraseIdx, if_pos hlt]
    rcases h with ⟨h1, _⟩ | ⟨_, h2, h3⟩
    · simp [h1] at hlt
    · simp only [hlen]
      by_cases hz : t.tabs.length - 1 = 0
      · left
        exact ⟨List.length_eq_zero.mp (hlen.trans hz), by simp [hz]⟩
      · right
        refine ⟨fun hnil => hz (by rw [← hlen, hnil]; rfl), ?_⟩
        have hz2 : ((t.tabs.length - 1 : Nat) : Int) ≠ 0 := by omega
        simp only [hz2, if_false]
        split_ifs <;> omega
  · exact h

theorem currentWidget_eq_some (t : QTabWidget) (c : ChildWidget)
    (h : t.currentWidget = some c) :
    0 ≤ t.currentIndex ∧ t.currentIndex.toNat < t.tabs.length ∧
      (t.tabs.get? t.currentIndex.toNat).map Tab.widget = some c := by
  have h0 : 0 ≤ t.currentIndex := by
    by_contra hneg
    simp [QTabWidget.currentWidget, QTabWidget.widget, hneg] at h
  simp only [QTabWidget.currentWidget, QTabWidget.widget, h0, if_true] at h
  refine ⟨h0, ?_, h⟩
  by_contra hge
  have hnone : t.tabs.get? t.currentIndex.toNat = none := List.get?_eq_none.mpr (by omega)
  rw [hnone] at h
  cases h

theorem currentWidget_eq_none_of_valid (t : QTabWidget) (hv : t.valid = true)
    (h : t.currentWidget = none) : t.tabs = [] := by
  rw [QTabWidget.valid_iff] at hv
  rcases hv with ⟨h1, _⟩ | ⟨_, h2, h3⟩
  · exact h1
  · exfalso
    have hlt : t.currentIndex.toNat < t.tabs.length := by omega
    simp [QTabWidget.currentWidget, QTabWidget.widget, h2, List.getElem?_eq_getElem hlt] at h

theorem forall_mem_eraseIdx {α : Type} (P : α → Prop) (l : List α) (i : Nat)
    (h : i < l.length) :
    (∀ t ∈ l, P t) ↔ P (l.get ⟨i, h⟩) ∧ ∀ t ∈ l.eraseIdx i, P t := by
  induction l generalizing i with
  | nil => simp at h
  | cons a l ih =>
    cases i with
    | zero => simp
    | succ i =>
      have hi : i < l.length := by simpa using h
      simp only [List.mem_cons, forall_eq_or_imp, List.eraseIdx_cons_succ, List.get_cons_succ,
        ih i hi]
      tauto

theorem closeActiveTab_of_accept (accept : ChildWidget → Bool) (w : MainWindow)
    (c : ChildWidget) (hc : w.tabWidget.currentWidget = some c) (ha : accept c = true) :
    closeActiveTab accept w =
      (true, { w with tabWidget := w.tabWidget.removeTab w.tabWidget.currentIndex }) := by
  simp [closeActiveTab, hc, ha]

theorem closeActiveTab_of_refuse (accept : ChildWidget → Bool) (w : MainWindow)
    (c : ChildWidget) (hc : w.tabWidget.currentWidget = some c) (ha : accept c = false) :
    closeActiveTab accept w = (false, w) := by
  simp [closeActiveTab, hc, ha]

theorem removeTab_current_tabs (t : QTabWidget) (c : ChildWidget)
    (hc : t.currentWidget = some c) :
    (t.removeTab t.currentIndex).tabs = t.tabs.eraseIdx t.currentIndex.toNat := by
  obtain ⟨h0, hlt, _⟩ := currentWidget_eq_some t c hc
  have hidx : t.currentIndex < t.count := by
    simp only [QTabWidget.count]
    omega
  simp [QTabWidget.removeTab, h0, hidx]

theorem closeAllTabs_settings (accept : ChildWidget → Bool) (w : MainWindow) :
    (closeAllTabs accept w).2.settings = w.settings ∧
    (closeAllTabs accept w).2.geometry = w.geometry ∧
    (closeAllTabs accept w).2.state = w.state := by
  have hstep : ∀ v : MainWindow, (closeActiveTab accept v).2.settings = v.settings ∧
      (closeActiveTab accept v).2.geometry = v.geometry ∧
      (closeActiveTab accept v).2.state = v.state := by
    intro v
    unfold closeActiveTab
    split
    · split <;> exact ⟨rfl, rfl, rfl⟩
    · exact ⟨rfl, rfl, rfl⟩
  induction w using closeAllTabs.induct accept with
  | case1 w h h2 ih =>
    rw [closeAllTabs, dif_pos h, dif_pos h2]
    obtain ⟨h3, h4, h5⟩ := hstep w
    exact ⟨ih.1.trans h3, ih.2.1.trans h4, ih.2.2.trans h5⟩
  | case2 w h h2 =>
    rw [closeAllTabs, dif_pos h, dif_neg h2]
    exact hstep w
  | case3 w h =>
    rw [closeAllTabs, dif_neg h]
    exact ⟨rfl, rfl, rfl⟩

theorem closeAllTabs_spec (accept : ChildWidget → Bool) (w : MainWindow) :
    w.tabWidget.valid = true →
      (closeAllTabs accept w).2.tabWidget.valid = true ∧
      ((closeAllTabs accept w).1 = true ↔
        ∀ t ∈ w.tabWidget.tabs, accept t.widget = true) ∧
      ((closeAllTabs accept w).1 = true → (closeAllTabs accept w).2.tabWidget.tabs = []) ∧
      ((closeAllTabs accept w).1 = false →
        ∃ c closed,
          (closeAllTabs accept w).2.tabWidget.currentWidget = some c ∧
          accept c = false ∧
          closeAllTabsAsked accept w = closed ++ [c] ∧
          (∀ d ∈ closed, accept d = true) ∧
          closed.length + (closeAllTabs accept w).2.tabWidget.tabs.length =
            w.tabWidget.tabs.length) := by
  induction w using closeAllTabs.induct accept with
  | case1 w h h2 ih =>
    intro hv
    obtain ⟨c, hc⟩ := Option.isSome_iff_exists.mp h
    have ha : accept c = true := by
      by_contra hna
      have hf : accept c = false := by simpa using hna
      rw [closeActiveTab_of_refuse accept w c hc hf] at h2
      cases h2
    have hstep := closeActiveTab_of_accept accept w c hc ha
    obtain ⟨h0, hlt, hget⟩ := currentWidget_eq_some w.tabWidget c hc
    have htabs : (closeActiveTab accept w).2.tabWidget.tabs =
        w.tabWidget.tabs.eraseIdx w.tabWidget.currentIndex.toNat := by
      rw [hstep]
      exact removeTab_current_tabs w.tabWidget c hc
    have hv1 : (closeActiveTab accept w).2.tabWidget.valid = true := by
      rw [hstep]
      exact removeTab_valid _ _ hv
    obtain ⟨i1, i2, i3, i4⟩ := ih hv1
    have hcur : (w.tabWidget.tabs.get ⟨w.tabWidget.currentIndex.toNat, hlt⟩).widget = c := by
      rw [List.get?_eq_get hlt] at hget
      simpa using hget
    have hlen : (closeActiveTab accept w).2.tabWidget.tabs.length + 1 =
        w.tabWidget.tabs.length := by
      rw [htabs, List.length_eraseIdx, if_pos hlt]
      omega
    have hrun : closeAllTabs accept w = closeAllTabs accept (closeActiveTab accept w).2 := by
      rw [closeAllTabs, dif_pos h, dif_pos h2]
    have hasked : closeAllTabsAsked accept w =
        c :: closeAllTabsAsked accept (closeActiveTab accept w).2 := by
      rw [closeAllTabsAsked, dif_pos h, dif_pos h2, hc]
      rfl
    rw [hrun]
    refine ⟨i1, ?_, i3, ?_⟩
    · rw [i2, forall_mem_eraseIdx (fun t => accept t.widget = true) w.tabWidget.tabs
        w.tabWidget.currentIndex.toNat hlt, htabs]
      simp only [hcur, ha, true_and]
    · intro hfalse
      obtain ⟨c2, closed, j1, j2, j3, j4, j5⟩ := i4 hfalse
      refine ⟨c2, c :: closed, j1, j2, ?_, ?_, ?_⟩
      · rw [hasked, j3]
        rfl
      · intro d hd
        rcases List.mem_cons.mp hd with hd1 | hd1
        · rw [hd1]
          exact ha
        · exact j4 d hd1
      · simp only [List.length_cons]
        omega
  | case2 w h h2 =>
    intro hv
    obtain ⟨c, hc⟩ := Option.isSome_iff_exists.mp h
    have ha : accept c = false := by
      by_contra hna
      have ht : accept c = true := by simpa using hna
      rw [closeActiveTab_of_accept accept w c hc ht] at h2
      exact h2 rfl
    have hstep := closeActiveTab_of_refuse accept w c hc ha
    obtain ⟨h0, hlt, hget⟩ := currentWidget_eq_some w.tabWidget c hc
    have hcur : (w.tabWidget.tabs.get ⟨w.tabWidget.currentIndex.toNat, hlt⟩).widget = c := by
      rw [List.get?_eq_get hlt] at hget
      simpa using hget
    have hrun : closeAllTabs accept w = (false, w) := by
      rw [closeAllTabs, dif_pos h, dif_neg h2, hstep]
    have hasked : closeAllTabsAsked accept w = [c] := by
      rw [closeAllTabsAsked, dif_pos h, dif_neg h2, hc]
      rfl
    rw [hrun]
    refine ⟨hv, ?_, ?_, ?_⟩
    · constructor
      · intro hft
        cases hft
      · intro hall
        have := hall _ (List.get_mem w.tabWidget.tabs w.tabWidget.currentIndex.toNat hlt)
        rw [hcur, ha] at this
        cases this
    · intro hft
      cases hft
    · intro _
      exact ⟨c, [], hc, ha, by rw [hasked]; rfl, by simp, by simp⟩
  | case3 w h =>
    intro hv
    have hnone : w.tabWidget.currentWidget = none := by
      cases hcw : w.tabWidget.currentWidget with
      | none => rfl
      | some c => simp [hcw] at h
    have hnil := currentWidget_eq_none_of_valid w.tabWidget hv hnone
    have hrun : closeAllTabs accept w = (true, w) := by
      rw [closeAllTabs, dif_neg h]
    rw [hrun]
    refine ⟨hv, ?_, fun _ => hnil, ?_⟩
    · simp [hnil]
    · intro hft
      cases hft

theorem addChild_valid (env : Env) (w : MainWindow) (f : String)
    (hv : w.tabWidget.valid = true) : (addChild env w f).tabWidget.valid = true := by
  by_cases hf : f = ""
  · simpa [addChild, hf] using hv
  · cases hscan : addChildScan (env.canonicalFilePath f) w.tabWidget.tabs 0 with
    | some i =>
      rw [addChild_open env w f hf i hscan]
      exact setCurrentIndex_valid _ _ hv
    | none =>
      cases hl : env.loadImage f with
      | none =>
        rw [addChild_failed env w f hf hscan hl]
        exact hv
      | some c =>
        have htw : (addChild env w f).tabWidget =
            (w.tabWidget.addTab c c.userFriendlyCurrentFile).1.setCurrentIndex
              (w.tabWidget.addTab c c.userFriendlyCurrentFile).2 := by
          simp [addChild, hf, hscan, hl, updateRecentFileActions_tabWidget]
        rw [htw]
        exact setCurrentIndex_valid _ _ (addTab_valid _ _ _ hv)

theorem closeActiveTab_valid (accept : ChildWidget → Bool) (w : MainWindow)
    (hv : w.tabWidget.valid = true) : (closeActiveTab accept w).2.tabWidget.valid = true := by
  unfold closeActiveTab
  split
  · split
    · exact removeTab_valid _ _ hv
    · exact hv
  · exact hv

theorem handleClose_valid (accept : ChildWidget → Bool) (w : MainWindow) (i : Int)
    (hv : w.tabWidget.valid = true) : (handleClose accept w i).tabWidget.valid = true := by
  unfold handleClose
  have h1 : (match w.tabWidget.widget i with
      | some c => if accept c then { w with tabWidget := w.tabWidget.removeTab i } else w
      | none => w).tabWidget.valid = true := by
    split
    · split
      · exact removeTab_valid _ _ hv
      · exact hv
    · exact hv
  simp only
  split <;> exact h1

theorem nextTab_valid (w : MainWindow) (hv : w.tabWidget.valid = true) :
    (nextTab w).tabWidget.valid = true := by
  unfold nextTab
  split
  · exact setCurrentIndex_valid _ _ hv
  · exact hv

theorem previousTab_valid (w : MainWindow) (hv : w.tabWidget.valid = true) :
    (previousTab w).tabWidget.valid = true := by
  unfold previousTab
  split
  · exact setCurrentIndex_valid _ _ hv
  · exact hv

/-- Every window reached by tab operations from a window with a valid tab
widget has a valid tab widget. -/
theorem runOps_valid (env : Env) (ops : List Op) (w : MainWindow)
    (hv : w.tabWidget.valid = true) : (runOps env w ops).tabWidget.valid = true := by
  induction ops generalizing w with
  | nil => exact hv
  | cons op rest ih =>
    simp only [runOps, List.foldl_cons]
    apply ih
    cases op with
    | addChild f => exact addChild_valid env w f hv
    | closeActiveTab accept => exact closeActiveTab_valid accept w hv
    | closeAllTabs accept => exact (closeAllTabs_spec accept w hv).1
    | handleClose accept i => exact handleClose_valid accept w i hv
    | nextTab => exact nextTab_valid w hv
    | previousTab => exact previousTab_valid w hv

theorem new_valid (env : Env) (st : Store) (g s : QByteArray) :
    (MainWindow.new env st g s).tabWidget.valid = true := by
  have h : (MainWindow.new env st g s).tabWidget = { tabs := [], currentIndex := -1 } := by
    unfold MainWindow.new
    simp only [readSettings]
    rw [updateSaveAction_tabWidget, updateCommandActions_tabWidget, updateMenus_tabWidget,
      updateRecentFileActions_tabWidget]
  rw [h]
  rfl

/-- C12. For a window whose tab widget is in a state Qt allows, closeEvent
accepts the event exactly when every open tab accepts its close request.  When
it accepts, closeAllTabs returned true, no tab is left and the window is the
one writeSettings gives.  When it ignores the event, the settings store is
untouched, the refusing document is still open as the current tab, and
close() was called on the documents closed before it and on it, on no
other. -/
theorem C12_closeEvent (accept : ChildWidget → Bool) (w : MainWindow)
    (hv : w.tabWidget.valid = true) :
    ((closeEvent accept w).1 = true ↔ ∀ t ∈ w.tabWidget.tabs, accept t.widget = true) ∧
    ((closeEvent accept w).1 = true →
      (closeAllTabs accept w).1 = true ∧
      (closeAllTabs accept w).2.tabWidget.count = 0 ∧
      (closeEvent accept w).2 = writeSettings (closeAllTabs accept w).2 ∧
      (closeEvent accept w).2.tabWidget.count = 0 ∧
      (closeEvent accept w).2.settings "mainWindow/geometry" = QVariant.byteArray w.geometry ∧
      (closeEvent accept w).2.settings "mainWindow/state" = QVariant.byteArray w.state) ∧
    ((closeEvent accept w).1 = false →
      (closeAllTabs accept w).1 = false ∧
      (closeEvent accept w).2.settings = w.settings ∧
      ∃ c closed,
        (closeEvent accept w).2.tabWidget.currentWidget = some c ∧
        accept c = false ∧
        closeAllTabsAsked accept w = closed ++ [c] ∧
        (∀ d ∈ closed, accept d = true) ∧
        closed.length + (closeEvent accept w).2.tabWidget.tabs.length =
          w.tabWidget.tabs.length) := by
  obtain ⟨_, h2, h3, h4⟩ := closeAllTabs_spec accept w hv
  obtain ⟨s1, s2, s3⟩ := closeAllTabs_settings accept w
  cases hr : (closeAllTabs accept w).1 with
  | true =>
    have hce : closeEvent accept w = (true, writeSettings (closeAllTabs accept w).2) := by
      simp [closeEvent, hr]
    have hnil := h3 hr
    rw [hce]
    refine ⟨?_, ?_, ?_⟩
    · rw [← h2, hr]
    · intro _
      refine ⟨rfl, by simp [QTabWidget.count, hnil], rfl, ?_, ?_, ?_⟩
      · show (closeAllTabs accept w).2.tabWidget.count = 0
        simp [QTabWidget.count, hnil]
      · rw [writeSettings_settings, s2]
        simp
      · rw [writeSettings_settings, s3]
        simp
    · intro hft
      cases hft
  | false =>
    have hce : closeEvent accept w = (false, (closeAllTabs accept w).2) := by
      simp [closeEvent, hr]
    rw [hce]
    refine ⟨?_, ?_, ?_⟩
    · rw [← h2, hr]
    · intro hft
      cases hft
    · intro _
      exact ⟨rfl, s1, h4 hr⟩

theorem C12_closeEvent_witness :
    (runOps demoEnv demoWindow [Op.addChild "a.tif", Op.addChild "b.tif"]).tabWidget.valid =
      true ∧
    (closeEvent (fun _ => true)
      (runOps demoEnv demoWindow [Op.addChild "a.tif", Op.addChild "b.tif"])).1 = true ∧
    ¬ (closeEvent (fun c => c.canonicalImageFileName != "/scans/a.tif")
      (runOps demoEnv demoWindow [Op.addChild "a.tif", Op.addChild "b.tif"])).1 = true :=
  ⟨by decide,
   (C12_closeEvent (fun _ => true)
      (runOps demoEnv demoWindow [Op.addChild "a.tif", Op.addChild "b.tif"])
      (by decide)).1.mpr (fun _ _ => rfl),
   fun h =>
     absurd
       ((C12_closeEvent (fun c => c.canonicalImageFileName != "/scans/a.tif")
          (runOps demoEnv demoWindow [Op.addChild "a.tif", Op.addChild "b.tif"])
          (by decide)).1.mp h)
       (by decide)⟩

theorem foldl_modify_range' {α : Type} (g : Nat → α → α) (m s : Nat) (l : List α) (k : Nat) :
    ((List.range' s m).foldl (fun acts i => acts.modify (g i) i) l)[k]? =
      if s ≤ k ∧ k < s + m then (l[k]?).map (g k) else l[k]? := by
  induction m generalizing s l with
  | zero =>
    have hno : ¬ (s ≤ k ∧ k < s + 0) := by omega
    simp only [List.range'_zero, List.foldl_nil, if_neg hno]
  | succ m ih =>
    rw [List.range'_succ, List.foldl_cons, ih, List.getElem?_modify]
    by_cases hk : s = k
    · subst hk
      have h1 : ¬ (s + 1 ≤ s ∧ s < s + 1 + m) := by omega
      have h2 : s ≤ s ∧ s < s + (m + 1) := by omega
      rw [if_neg h1, if_pos h2]
      cases l[s]? <;> simp
    · by_cases hc : s + 1 ≤ k ∧ k < s + 1 + m
      · have h2 : s ≤ k ∧ k < s + (m + 1) := by omega
        rw [if_pos hc, if_pos h2]
        cases l[k]? <;> simp [hk]
      · have h2 : ¬ (s ≤ k ∧ k < s + (m + 1)) := by omega
        rw [if_neg hc, if_neg h2]
        cases l[k]? <;> simp [hk]

theorem foldl_modify_length {α : Type} (g : Nat → α → α) (idx : List Nat) (l : List α) :
    (idx.foldl (fun acts i => acts.modify (g i) i) l).length = l.length := by
  induction idx generalizing l with
  | nil => rfl
  | cons i rest ih => rw [List.foldl_cons, ih, List.length_modify]

theorem foldlM_eq_some_foldl {α : Type} (F : List α → Nat → Option (List α))
    (G : List α → Nat → List α) (L : Nat) (idx : List Nat)
    (hF : ∀ acts i, i ∈ idx → acts.length = L → F acts i = some (G acts i))
    (hG : ∀ acts i, (G acts i).length = acts.length)
    (l : List α) (hl : l.length = L) :
    idx.foldlM F l = some (idx.foldl G l) := by
  induction idx generalizing l with
  | nil => rfl
  | cons i rest ih =>
    rw [List.foldlM_cons, List.foldl_cons, hF l i (List.mem_cons_self _ _) hl]
    exact ih (fun acts j hj => hF acts j (List.mem_cons_of_mem _ hj)) (G l i)
      ((hG l i).trans hl)

theorem updateRecentFileActions_recentFileActs (env : Env) (w : MainWindow) :
    (updateRecentFileActions env w).recentFileActs =
      (List.range' (min (w.settings "recentFileList").toStringList.length env.MaxRecentFiles)
        (env.MaxRecentFiles -
          min (w.settings "recentFileList").toStringList.length env.MaxRecentFiles)).foldl
        (fun acts j => acts.modify ((fun _ a => a.setVisible false) j) j)
        ((List.range' 0
          (min (w.settings "recentFileList").toStringList.length env.MaxRecentFiles)).foldl
          (fun acts i => acts.modify
            ((fun i a =>
              ((a.setText ("&" ++ toString (i + 1) ++ " " ++
                  fileName ((w.settings "recentFileList").toStringList.getD i ""))).setData
                (QVariant.string
                  ((w.settings "recentFileList").toStringList.getD i ""))).setVisible true)
              i) i)
          w.recentFileActs) := by
  rw [← List.range_eq_range']
  rfl

theorem updateRecentFileActions_length (env : Env) (w : MainWindow) :
    (updateRecentFileActions env w).recentFileActs.length = w.recentFileActs.length := by
  rw [updateRecentFileActions_recentFileActs, foldl_modify_length, foldl_modify_length]

theorem updateRecentFileActions_get (env : Env) (w : MainWindow) (k : Nat) :
    (updateRecentFileActions env w).recentFileActs[k]? =
      if k < min (w.settings "recentFileList").toStringList.length env.MaxRecentFiles then
        (w.recentFileActs[k]?).map (fun a =>
          ((a.setText ("&" ++ toString (k + 1) ++ " " ++
              fileName ((w.settings "recentFileList").toStringList.getD k ""))).setData
            (QVariant.string
              ((w.settings "recentFileList").toStringList.getD k ""))).setVisible true)
      else if k < env.MaxRecentFiles then
        (w.recentFileActs[k]?).map (fun a => a.setVisible false)
      else w.recentFileActs[k]? := by
  rw [updateRecentFileActions_recentFileActs, foldl_modify_range', foldl_modify_range']
  by_cases h1 : k < min (w.settings "recentFileList").toStringList.length env.MaxRecentFiles
  · have h2 : ¬ (min (w.settings "recentFileList").toStringList.length env.MaxRecentFiles ≤ k ∧
        k < min (w.settings "recentFileList").toStringList.length env.MaxRecentFiles +
          (env.MaxRecentFiles -
            min (w.settings "recentFileList").toStringList.length env.MaxRecentFiles)) := by
      omega
    have h3 : 0 ≤ k ∧
        k < 0 + min (w.settings "recentFileList").toStringList.length env.MaxRecentFiles := by
      omega
    rw [if_neg h2, if_pos h3, if_pos h1]
  · by_cases h4 : k < env.MaxRecentFiles
    · have h2 : min (w.settings "recentFileList").toStringList.length env.MaxRecentFiles ≤ k ∧
          k < min (w.settings "recentFileList").toStringList.length env.MaxRecentFiles +
            (env.MaxRecentFiles -
              min (w.settings "recentFileList").toStringList.length env.MaxRecentFiles) := by
        omega
      have h3 : ¬ (0 ≤ k ∧
          k < 0 + min (w.settings "recentFileList").toStringList.length env.MaxRecentFiles) := by
        omega
      rw [if_pos h2, if_neg h3, if_neg h1, if_pos h4]
    · have h2 : ¬ (min (w.settings "recentFileList").toStringList.length env.MaxRecentFiles ≤ k ∧
          k < min (w.settings "recentFileList").toStringList.length env.MaxRecentFiles +
            (env.MaxRecentFiles -
              min (w.settings "recentFileList").toStringList.length env.MaxRecentFiles)) := by
        omega
      have h3 : ¬ (0 ≤ k ∧
          k < 0 + min (w.settings "recentFileList").toStringList.length env.MaxRecentFiles) := by
        omega
      rw [if_neg h2, if_neg h3, if_neg h1, if_neg h4]

theorem updateRecentFileActionsChecked_eq (env : Env) (w : MainWindow)
    (hlen : w.recentFileActs.length = env.MaxRecentFiles) :
    updateRecentFileActionsChecked env w = some (updateRecentFileActions env w) := by
  have h1 := foldlM_eq_some_foldl
    (fun acts i =>
      if i < (w.settings "recentFileList").toStringList.length ∧ i < acts.length then
        some (acts.modify
          (fun a =>
            ((a.setText ("&" ++ toString (i + 1) ++ " " ++
                fileName ((w.settings "recentFileList").toStringList.getD i ""))).setData
              (QVariant.string
                ((w.settings "recentFileList").toStringList.getD i ""))).setVisible true) i)
      else none)
    (fun acts i => acts.modify
      (fun a =>
        ((a.setText ("&" ++ toString (i + 1) ++ " " ++
            fileName ((w.settings "recentFileList").toStringList.getD i ""))).setData
          (QVariant.string
            ((w.settings "recentFileList").toStringList.getD i ""))).setVisible true) i)
    env.MaxRecentFiles
    (List.range (min (w.settings "recentFileList").toStringList.length env.MaxRecentFiles))
    (by
      intro acts i hi hl
      have hi2 := List.mem_range.mp hi
      have hc : i < (w.settings "recentFileList").toStringList.length ∧ i < acts.length := by
        omega
      simp only [hc, and_self, if_true])
    (fun acts i => List.length_modify _ _ _)
    w.recentFileActs hlen
  have h2 := foldlM_eq_some_foldl
    (fun acts j =>
      if j < acts.length then some (acts.modify (fun a => a.setVisible false) j) else none)
    (fun acts j => acts.modify (fun a => a.setVisible false) j)
    env.MaxRecentFiles
    (List.range' (min (w.settings "recentFileList").toStringList.length env.MaxRecentFiles)
      (env.MaxRecentFiles -
        min (w.settings "recentFileList").toStringList.length env.MaxRecentFiles))
    (by
      intro acts j hj hl
      have hj2 := List.mem_range'_1.mp hj
      have hc : j < acts.length := by omega
      simp only [hc, if_true])
    (fun acts j => List.length_modify _ _ _)
    ((List.range
      (min (w.settings "recentFileList").toStringList.length env.MaxRecentFiles)).foldl
      (fun acts i => acts.modify
        (fun a =>
          ((a.setText ("&" ++ toString (i + 1) ++ " " ++
              fileName ((w.settings "recentFileList").toStringList.getD i ""))).setData
            (QVariant.string
              ((w.settings "recentFileList").toStringList.getD i ""))).setVisible true) i)
      w.recentFileActs)
    (by
      have := foldl_modify_length
        (fun i (a : QAction) =>
          ((a.setText ("&" ++ toString (i + 1) ++ " " ++
              fileName ((w.settings "recentFileList").toStringList.getD i ""))).setData
            (QVariant.string
              ((w.settings "recentFileList").toStringList.getD i ""))).setVisible true)
        (List.range
          (min (w.settings "recentFileList").toStringList.length env.MaxRecentFiles))
        w.recentFileActs
      exact this.trans hlen)
  have hkey : (QSettings.ofStore w.settings).value "recentFileList" =
      w.settings "recentFileList" := by
    show w.settings ((QSettings.ofStore w.settings).fullKey "recentFileList") = _
    rw [fullKey_ofStore]
  unfold updateRecentFileActionsChecked updateRecentFileActions
  simp only [hkey]
  rw [h1]
  simp only [Option.bind_eq_bind, Option.some_bind]
  rw [h2]
  rfl

/-- C13. With the array recentFileActs of size MaxRecentFiles, the stored
list files and n = min(length(files), MaxRecentFiles): after
updateRecentFileActions every action i < n is visible, carries files[i] as
its data and has the text "&", i+1, a space and the base file name of
files[i]; every action i with n <= i < MaxRecentFiles is hidden; the separator
above them is visible exactly when n > 0; and no subscript of files or of
recentFileActs falls outside its array (the run with checked subscripts
succeeds and gives the same window). -/
theorem C13_updateRecentFileActions (env : Env) (w : MainWindow)
    (hlen : w.recentFileActs.length = env.MaxRecentFiles) :
    (∀ i, i < min (w.settings "recentFileList").toStringList.length env.MaxRecentFiles →
      ∃ a f,
        (updateRecentFileActions env w).recentFileActs.get? i = some a ∧
        (w.settings "recentFileList").toStringList.get? i = some f ∧
        a.visible = true ∧
        a.data = QVariant.string f ∧
        a.text = "&" ++ toString (i + 1) ++ " " ++ fileName f) ∧
    (∀ i, min (w.settings "recentFileList").toStringList.length env.MaxRecentFiles ≤ i →
      i < env.MaxRecentFiles →
      ∃ a, (updateRecentFileActions env w).recentFileActs.get? i = some a ∧
        a.visible = false) ∧
    ((updateRecentFileActions env w).fSeparatorAct.visible = true ↔
      0 < min (w.settings "recentFileList").toStringList.length env.MaxRecentFiles) ∧
    (updateRecentFileActions env w).recentFileActs.length = env.MaxRecentFiles ∧
    updateRecentFileActionsChecked env w = some (updateRecentFileActions env w) := by
  refine ⟨?_, ?_, ?_, (updateRecentFileActions_length env w).trans hlen,
    updateRecentFileActionsChecked_eq env w hlen⟩
  · intro i hi
    have hi1 : i < w.recentFileActs.length := by omega
    have hi2 : i < (w.settings "recentFileList").toStringList.length := by omega
    have hget := updateRecentFileActions_get env w i
    rw [if_pos hi, List.getElem?_eq_getElem hi1] at hget
    have hd : (w.settings "recentFileList").toStringList.getD i "" =
        (w.settings "recentFileList").toStringList[i] := by
      simp [List.getD, List.getElem?_eq_getElem hi2]
    rw [hd] at hget
    refine ⟨((w.recentFileActs[i].setText ("&" ++ toString (i + 1) ++ " " ++
        fileName (w.settings "recentFileList").toStringList[i])).setData
        (QVariant.string (w.settings "recentFileList").toStringList[i])).setVisible true,
      (w.settings "recentFileList").toStringList[i], ?_, ?_, rfl, rfl, rfl⟩
    · rw [List.get?_eq_getElem?, hget]
      rfl
    · rw [List.get?_eq_getElem?, List.getElem?_eq_getElem hi2]
  · intro i hi hmax
    have hi1 : i < w.recentFileActs.length := by omega
    have hget := updateRecentFileActions_get env w i
    rw [if_neg (by omega), if_pos hmax, List.getElem?_eq_getElem hi1] at hget
    refine ⟨w.recentFileActs[i].setVisible false, ?_, rfl⟩
    rw [List.get?_eq_getElem?, hget]
    rfl
  · show decide (min ((QSettings.ofStore w.settings).value "recentFileList").toStringList.length
        env.MaxRecentFiles > 0) = true ↔ _
    have hkey : (QSettings.ofStore w.settings).value "recentFileList" =
        w.settings "recentFileList" := by
      show w.settings ((QSettings.ofStore w.settings).fullKey "recentFileList") = _
      rw [fullKey_ofStore]
    rw [hkey]
    simp

theorem C13_updateRecentFileActions_witness :
    updateRecentFileActionsChecked demoEnv
        { demoWindow with settings := fun k =>
            if k = "recentFileList" then
              QVariant.stringList ["/scans/x.tif", "y.tif", "/old/z.tif"]
            else QVariant.invalid } =
      some (updateRecentFileActions demoEnv
        { demoWindow with settings := fun k =>
            if k = "recentFileList" then
              QVariant.stringList ["/scans/x.tif", "y.tif", "/old/z.tif"]
            else QVariant.invalid }) ∧
    (updateRecentFileActions demoEnv
        { demoWindow with settings := fun k =>
            if k = "recentFileList" then
              QVariant.stringList ["/scans/x.tif", "y.tif", "/old/z.tif"]
            else QVariant.invalid }).recentFileActs.map (fun a => (a.visible, a.text)) =
      [(true, "&1 x.tif"), (true, "&2 y.tif")] :=
  ⟨(C13_updateRecentFileActions demoEnv
      { demoWindow with settings := fun k =>
          if k = "recentFileList" then
            QVariant.stringList ["/scans/x.tif", "y.tif", "/old/z.tif"]
          else QVariant.invalid }
      (by decide)).2.2.2.2,
   by decide⟩

theorem addChild_new_tabWidget (env : Env) (w : MainWindow) (f : String) (c : ChildWidget)
    (hf : f ≠ "")
    (hscan : addChildScan (env.canonicalFilePath f) w.tabWidget.tabs 0 = none)
    (hload : env.loadImage f = some c) :
    (addChild env w f).tabWidget =
      { tabs := w.tabWidget.tabs ++ [{ widget := c, text := c.userFriendlyCurrentFile }]
        currentIndex := (w.tabWidget.tabs.length : Int) } := by
  have htw : (addChild env w f).tabWidget =
      (w.tabWidget.addTab c c.userFriendlyCurrentFile).1.setCurrentIndex
        (w.tabWidget.addTab c c.userFriendlyCurrentFile).2 := by
    simp [addChild, hf, hscan, hload, updateRecentFileActions_tabWidget]
  rw [htw]
  have hin : (0 : Int) ≤ (w.tabWidget.tabs.length : Int) ∧
      (w.tabWidget.tabs.length : Int) <
        ((w.tabWidget.tabs ++
          [({ widget := c, text := c.userFriendlyCurrentFile } : Tab)]).length : Int) := by
    simp
  simp only [QTabWidget.addTab, QTabWidget.setCurrentIndex, QTabWidget.count, hin, and_self,
    if_true]

/-- C14. For a non-empty file name whose canonical path no open tab reports
and whose image loads, addChild appends exactly one tab for the loaded
document at the end of the tab list (the count grows by one, the tabs that
were open keep their order and contents), makes that tab the current one, and
stores the absolute directory of the file under last_path. -/
theorem C14_addChild_appends_tab (env : Env) (w : MainWindow) (f : String) (c : ChildWidget)
    (hf : f ≠ "")
    (hnew : env.canonicalFilePath f ∉ canonicalPaths w)
    (hload : env.loadImage f = some c) :
    (addChild env w f).tabWidget.tabs =
      w.tabWidget.tabs ++ [{ widget := c, text := c.userFriendlyCurrentFile }] ∧
    (addChild env w f).tabWidget.count = w.tabWidget.count + 1 ∧
    (addChild env w f).tabWidget.currentIndex = w.tabWidget.count ∧
    (addChild env w f).tabWidget.currentWidget = some c ∧
    (addChild env w f).settings "last_path" = QVariant.string (env.absolutePath f) := by
  have hscan := (addChildScan_none (env.canonicalFilePath f) w.tabWidget.tabs 0).mpr hnew
  have htw := addChild_new_tabWidget env w f c hf hscan hload
  have hne : ("last_path" : String) ≠ "recentFileList" := by decide
  refine ⟨by rw [htw], ?_, by rw [htw]; rfl, ?_, ?_⟩
  · rw [htw]
    simp [QTabWidget.count]
  · rw [htw]
    simp [QTabWidget.currentWidget, QTabWidget.widget]
  · rw [addChild_new_settings env w f c hf hscan hload]
    simp [hne]

theorem C14_addChild_appends_tab_witness :
    (addChild demoEnv (runOps demoEnv demoWindow [Op.addChild "a.tif"]) "b.tif").tabWidget.count =
      (runOps demoEnv demoWindow [Op.addChild "a.tif"]).tabWidget.count + 1 ∧
    (addChild demoEnv (runOps demoEnv demoWindow [Op.addChild "a.tif"])
      "b.tif").tabWidget.currentWidget = some (demoChild "/scans/b.tif") ∧
    (addChild demoEnv (runOps demoEnv demoWindow [Op.addChild "a.tif"]) "b.tif").settings
      "last_path" = QVariant.string "/scans" :=
  ⟨(C14_addChild_appends_tab demoEnv (runOps demoEnv demoWindow [Op.addChild "a.tif"])
      "b.tif" (demoChild "/scans/b.tif") (by decide) (by decide) (by decide)).2.1,
   (C14_addChild_appends_tab demoEnv (runOps demoEnv demoWindow [Op.addChild "a.tif"])
      "b.tif" (demoChild "/scans/b.tif") (by decide) (by decide) (by decide)).2.2.2.1,
   (C14_addChild_appends_tab demoEnv (runOps demoEnv demoWindow [Op.addChild "a.tif"])
      "b.tif" (demoChild "/scans/b.tif") (by decide) (by decide) (by decide)).2.2.2.2⟩

/-- C15. addChild changes the persisted settings only when it adds a tab.  For
an empty file name the window is unchanged.  For a file whose canonical path
some open tab reports, and for a file whose image fails to load, the settings
store is the one before the call, so recentFileList and last_path are what
they were (re-opening an open file does not move it to the front of the recent
list).  In the empty-name and failed-load cases the tab list and the current
index are unchanged as well. -/
theorem C15_addChild_settings_frame (env : Env) (w : MainWindow) (f : String) :
    (f = "" → addChild env w f = w) ∧
    (f ≠ "" → env.canonicalFilePath f ∈ canonicalPaths w →
      (addChild env w f).settings = w.settings ∧
      (addChild env w f).settings "recentFileList" = w.settings "recentFileList" ∧
      (addChild env w f).settings "last_path" = w.settings "last_path") ∧
    (f ≠ "" → env.canonicalFilePath f ∉ canonicalPaths w → env.loadImage f = none →
      (addChild env w f).settings = w.settings ∧
      (addChild env w f).settings "recentFileList" = w.settings "recentFileList" ∧
      (addChild env w f).settings "last_path" = w.settings "last_path" ∧
      (addChild env w f).tabWidget.tabs = w.tabWidget.tabs ∧
      (addChild env w f).tabWidget.currentIndex = w.tabWidget.currentIndex) := by
  refine ⟨?_, ?_, ?_⟩
  · intro hf
    simp [addChild, hf]
  · intro hf hopen
    cases hscan : addChildScan (env.canonicalFilePath f) w.tabWidget.tabs 0 with
    | none => exact absurd hopen ((addChildScan_none _ _ _).mp hscan)
    | some i =>
      rw [addChild_open env w f hf i hscan]
      exact ⟨rfl, rfl, rfl⟩
  · intro hf hnew hload
    have hscan := (addChildScan_none (env.canonicalFilePath f) w.tabWidget.tabs 0).mpr hnew
    rw [addChild_failed env w f hf hscan hload]
    exact ⟨rfl, rfl, rfl, rfl, rfl⟩

theorem C15_addChild_settings_frame_witness :
    addChild demoEnv (runOps demoEnv demoWindow [Op.addChild "a.tif", Op.addChild "b.tif"]) "" =
      runOps demoEnv demoWindow [Op.addChild "a.tif", Op.addChild "b.tif"] ∧
    (addChild demoEnv (runOps demoEnv demoWindow [Op.addChild "a.tif", Op.addChild "b.tif"])
      "link.tif").settings "recentFileList" =
      (runOps demoEnv demoWindow [Op.addChild "a.tif", Op.addChild "b.tif"]).settings
        "recentFileList" ∧
    (addChild demoEnv (runOps demoEnv demoWindow [Op.addChild "a.tif", Op.addChild "b.tif"])
      "missing.tif").tabWidget.tabs =
      (runOps demoEnv demoWindow [Op.addChild "a.tif", Op.addChild "b.tif"]).tabWidget.tabs :=
  ⟨(C15_addChild_settings_frame demoEnv
      (runOps demoEnv demoWindow [Op.addChild "a.tif", Op.addChild "b.tif"]) "").1 rfl,
   ((C15_addChild_settings_frame demoEnv
      (runOps demoEnv demoWindow [Op.addChild "a.tif", Op.addChild "b.tif"]) "link.tif").2.1
      (by decide) (by decide)).2.1,
   ((C15_addChild_settings_frame demoEnv
      (runOps demoEnv demoWindow [Op.addChild "a.tif", Op.addChild "b.tif"]) "missing.tif").2.2
      (by decide) (by decide) (by decide)).2.2.2.1⟩

theorem emod_next (c n : Int) (h0 : 0 ≤ c) (hc : c < n) :
    (c + 1) % n = if c + 1 = n then 0 else c + 1 := by
  split
  · rename_i h
    rw [h, Int.emod_self]
  · exact Int.emod_eq_of_lt (by omega) (by omega)

theorem emod_previous (c n : Int) (h0 : 0 ≤ c) (hc : c < n) :
    (c + n - 1) % n = if c = 0 then n - 1 else c - 1 := by
  split
  · rename_i h
    rw [h, Int.zero_add]
    exact Int.emod_eq_of_lt (by omega) (by omega)
  · have h : c + n - 1 = (c - 1) + n := by omega
    rw [h, Int.add_emod_self]
    exact Int.emod_eq_of_lt (by omega) (by omega)

theorem nextTab_tabWidget (w : MainWindow) (hn : 0 < w.tabWidget.count)
    (h0 : 0 ≤ w.tabWidget.currentIndex) (_hc : w.tabWidget.currentIndex < w.tabWidget.count) :
    (nextTab w).tabWidget =
      { w.tabWidget with
        currentIndex := (w.tabWidget.currentIndex + 1) % w.tabWidget.count } := by
  have hmod : Int.tmod (w.tabWidget.currentIndex + 1) w.tabWidget.count =
      (w.tabWidget.currentIndex + 1) % w.tabWidget.count :=
    Int.tmod_eq_emod (by omega) (by omega)
  have hlo : 0 ≤ (w.tabWidget.currentIndex + 1) % w.tabWidget.count :=
    Int.emod_nonneg _ (by omega)
  have hhi : (w.tabWidget.currentIndex + 1) % w.tabWidget.count < w.tabWidget.count :=
    Int.emod_lt_of_pos _ hn
  simp only [nextTab, gt_iff_lt, hn, if_true, hmod, QTabWidget.setCurrentIndex, hlo, hhi,
    and_self]

theorem previousTab_tabWidget (w : MainWindow) (hn : 0 < w.tabWidget.count)
    (h0 : 0 ≤ w.tabWidget.currentIndex) (_hc : w.tabWidget.currentIndex < w.tabWidget.count) :
    (previousTab w).tabWidget =
      { w.tabWidget with
        currentIndex :=
          (w.tabWidget.currentIndex + w.tabWidget.count - 1) % w.tabWidget.count } := by
  have hmod : Int.tmod (w.tabWidget.currentIndex + w.tabWidget.count - 1) w.tabWidget.count =
      (w.tabWidget.currentIndex + w.tabWidget.count - 1) % w.tabWidget.count :=
    Int.tmod_eq_emod (by omega) (by omega)
  have hlo : 0 ≤ (w.tabWidget.currentIndex + w.tabWidget.count - 1) % w.tabWidget.count :=
    Int.emod_nonneg _ (by omega)
  have hhi : (w.tabWidget.currentIndex + w.tabWidget.count - 1) % w.tabWidget.count <
      w.tabWidget.count :=
    Int.emod_lt_of_pos _ hn
  simp only [previousTab, gt_iff_lt, hn, if_true, hmod, QTabWidget.setCurrentIndex, hlo, hhi,
    and_self]

/-- C16. Cyclic tab navigation.  With n > 0 tabs and current index c in
[0, n), nextTab sets the current index to (c + 1) mod n and previousTab to
(c + n - 1) mod n; both results lie in [0, n), nextTab on the last tab gives
the first, and previousTab after nextTab as well as nextTab after previousTab
give c again.  With no tabs both leave the window as it is. -/
theorem C16_cyclic_navigation (w : MainWindow) :
    (0 < w.tabWidget.count → 0 ≤ w.tabWidget.currentIndex →
      w.tabWidget.currentIndex < w.tabWidget.count →
      (nextTab w).tabWidget.currentIndex =
        (w.tabWidget.currentIndex + 1) % w.tabWidget.count ∧
      (previousTab w).tabWidget.currentIndex =
        (w.tabWidget.currentIndex + w.tabWidget.count - 1) % w.tabWidget.count ∧
      (0 ≤ (nextTab w).tabWidget.currentIndex ∧
        (nextTab w).tabWidget.currentIndex < w.tabWidget.count) ∧
      (0 ≤ (previousTab w).tabWidget.currentIndex ∧
        (previousTab w).tabWidget.currentIndex < w.tabWidget.count) ∧
      (w.tabWidget.currentIndex = w.tabWidget.count - 1 →
        (nextTab w).tabWidget.currentIndex = 0) ∧
      (previousTab (nextTab w)).tabWidget.currentIndex = w.tabWidget.currentIndex ∧
      (nextTab (previousTab w)).tabWidget.currentIndex = w.tabWidget.currentIndex) ∧
    (w.tabWidget.count = 0 → nextTab w = w ∧ previousTab w = w) := by
  constructor
  · intro hn h0 hc
    have hnext := nextTab_tabWidget w hn h0 hc
    have hprev := previousTab_tabWidget w hn h0 hc
    have e1 := emod_next w.tabWidget.currentIndex w.tabWidget.count h0 hc
    have e2 := emod_previous w.tabWidget.currentIndex w.tabWidget.count h0 hc
    have hcn : (nextTab w).tabWidget.count = w.tabWidget.count := by
      rw [hnext]
      rfl
    have hcp : (previousTab w).tabWidget.count = w.tabWidget.count := by
      rw [hprev]
      rfl
    have hin : (nextTab w).tabWidget.currentIndex =
        (w.tabWidget.currentIndex + 1) % w.tabWidget.count := by
      rw [hnext]
    have hip : (previousTab w).tabWidget.currentIndex =
        (w.tabWidget.currentIndex + w.tabWidget.count - 1) % w.tabWidget.count := by
      rw [hprev]
    have bn : 0 ≤ (nextTab w).tabWidget.currentIndex ∧
        (nextTab w).tabWidget.currentIndex < w.tabWidget.count := by
      rw [hin, e1]
      split <;> omega
    have bp : 0 ≤ (previousTab w).tabWidget.currentIndex ∧
        (previousTab w).tabWidget.currentIndex < w.tabWidget.count := by
      rw [hip, e2]
      split <;> omega
    refine ⟨hin, hip, bn, bp, ?_, ?_, ?_⟩
    · intro hlast
      rw [hin, e1, if_pos (by omega)]
    · have hpn := previousTab_tabWidget (nextTab w) (by rw [hcn]; exact hn) bn.1
        (by rw [hcn]; exact bn.2)
      have e3 := emod_previous (nextTab w).tabWidget.currentIndex w.tabWidget.count bn.1 bn.2
      rw [hpn, hcn]
      show ((nextTab w).tabWidget.currentIndex + w.tabWidget.count - 1) % w.tabWidget.count = _
      rw [e3, hin, e1]
      split_ifs <;> omega
    · have hnp := nextTab_tabWidget (previousTab w) (by rw [hcp]; exact hn) bp.1
        (by rw [hcp]; exact bp.2)
      have e3 := emod_next (previousTab w).tabWidget.currentIndex w.tabWidget.count bp.1 bp.2
      rw [hnp, hcp]
      show ((previousTab w).tabWidget.currentIndex + 1) % w.tabWidget.count = _
      rw [e3, hip, e2]
      split_ifs <;> omega
  · intro hz
    have hnot : ¬ w.tabWidget.count > 0 := by omega
    exact ⟨by simp only [nextTab, hnot, if_false], by simp only [previousTab, hnot, if_false]⟩

theorem C16_cyclic_navigation_witness :
    (nextTab (runOps demoEnv demoWindow
      [Op.addChild "a.tif", Op.addChild "b.tif"])).tabWidget.currentIndex = (1 + 1) % 2 ∧
    (previousTab (nextTab (runOps demoEnv demoWindow
      [Op.addChild "a.tif", Op.addChild "b.tif"]))).tabWidget.currentIndex = 1 ∧
    nextTab demoWindow = demoWindow :=
  ⟨((C16_cyclic_navigation
      (runOps demoEnv demoWindow [Op.addChild "a.tif", Op.addChild "b.tif"])).1
      (by decide) (by decide) (by decide)).1,
   ((C16_cyclic_navigation
      (runOps demoEnv demoWindow [Op.addChild "a.tif", Op.addChild "b.tif"])).1
      (by decide) (by decide) (by decide)).2.2.2.2.2.1,
   ((C16_cyclic_navigation demoWindow).2 (by decide)).1⟩

end QBoxEditor
